import Mathlib

/-!
# Verification of the anko scripting-language core

A shallow embedding of the parts of the anko interpreter that the
specification's claims are about:

* a model of the scoped environment and of `var` declarations versus plain
  assignments (spec §4.1), used for the scoping and module-isolation claims;
* models of string index assignment, sequence slicing, channels and integer
  literal parsing (spec §4.2, §8);
* a step-indexed model of statement execution under a host cancellation
  context (spec §4.4, §5);
* the generated LALR parser of the repository, embedded as an executable
  recognizer over its actual parsing tables, together with the reduce
  actions for `var` statements and multi-value `case` clauses;
* the `ast/astutil` walker, embedded constructor by constructor.

Where the interpreter sources themselves are not part of the provided tree
(only their tests are), the definitions are modelled from the specification
and are marked as such in their doc comments.
-/

namespace Anko

/-- Script values: the tagged-union variants needed by the claims
(spec §3 "Value"). -/
inductive Value where
  | vnil : Value
  | vbool : Bool → Value
  | vint : Int → Value
  | vstr : List Char → Value
  deriving DecidableEq, Repr

/-- A scope's name-to-value table (spec §3 "Scope"). -/
abbrev Frame := List (String × Value)

/-- A lexically nested chain of scopes, innermost first (spec §3 "Scope":
scopes form a tree; a chain is the path from the current scope to the root). -/
abbrev Env := List Frame

/-- Look a name up in a single scope's table. -/
def frameGet (f : Frame) (n : String) : Option Value :=
  match f with
  | [] => none
  | (m, v) :: rest => if m = n then some v else frameGet rest n

/-- Whether a single scope binds a name. -/
def frameBinds (f : Frame) (n : String) : Bool :=
  (frameGet f n).isSome

/-- Overwrite the binding of `n` in a scope that already binds it, leaving
other bindings unchanged. -/
def frameSet (f : Frame) (n : String) (v : Value) : Frame :=
  match f with
  | [] => []
  | (m, w) :: rest => if m = n then (m, v) :: rest else (m, w) :: frameSet rest n v

/-- Modelled from the spec: `Get(name)` walks ancestors until found or fails
(spec §4.1).  The environment implementation is not among the provided
sources; only its tests are. -/
def envGet (env : Env) (n : String) : Option Value :=
  match env with
  | [] => none
  | f :: rest =>
    match frameGet f n with
    | some v => some v
    | none => envGet rest n

/-- Modelled from the spec: `Define(name, value)` binds in the current scope,
with idempotent overwrite in the same scope (spec §4.1). -/
def envDefine (env : Env) (n : String) (v : Value) : Env :=
  match env with
  | [] => [[(n, v)]]
  | f :: rest => (if frameBinds f n then frameSet f n v else (n, v) :: f) :: rest

/-- Modelled from the spec: `Set(name, value)` locates the nearest ancestor
scope that binds the name and updates there; fails if none does (spec §4.1). -/
def envSetNearest (env : Env) (n : String) (v : Value) : Option Env :=
  match env with
  | [] => none
  | f :: rest =>
    if frameBinds f n then some (frameSet f n v :: rest)
    else (envSetNearest rest n v).map (f :: ·)

/-- Modelled from the spec: the assignment l-value rule — assignments write
the nearest ancestor that already binds the name, creating a new
current-scope binding only if none is found (spec §4.1). -/
def envAssign (env : Env) (n : String) (v : Value) : Env :=
  match envSetNearest env n v with
  | some e => e
  | none => envDefine env n v

/-- The statement forms needed for the scoping claims: plain assignment,
`var` declaration, and sequencing. -/
inductive SStmt where
  | assign : String → Value → SStmt
  | declare : String → Value → SStmt
  | seqS : SStmt → SStmt → SStmt

/-- Modelled from the spec: execution of the scoping statement forms against
an environment (spec §4.1 name shadowing rule, §4.4 var / assignment). -/
def execS (s : SStmt) (env : Env) : Env :=
  match s with
  | .assign n v => envAssign env n v
  | .declare n v => envDefine env n v
  | .seqS a b => execS b (execS a env)

/-- Modelled from the spec: a function call binds parameters in a new child
scope and executes the body there (spec §4.2 "call"); the child scope is
dropped when the call returns.  `callFn body env` returns the caller's
environment as observed after the call. -/
def callFn (body : SStmt) (env : Env) : Env :=
  (execS body ([] :: env)).tail

/-- Whether a name begins with an underscore. -/
def startsWithUnderscore (n : String) : Bool :=
  n.data.head? = some '_'

/-- Modelled from the spec: module member access from outside the module —
names beginning with an underscore are denied with an undefined-symbol
error (spec §3 invariants, §8 module isolation). -/
def moduleGetExternal (m : Frame) (n : String) : Except String Value :=
  if startsWithUnderscore n then .error ("undefined symbol " ++ n)
  else
    match frameGet m n with
    | some v => .ok v
    | none => .error ("undefined symbol " ++ n)

/-- Modelled from the spec: code defined inside a module reads a name through
the ordinary scope chain, whose parent is the module scope (spec §4.4 module
definition; spec §8 module isolation).  `fnFrame` is the scope of the
function declared in the module body. -/
def moduleGetInternal (fnFrame : Frame) (m : Frame) (globals : Env) (n : String) : Option Value :=
  envGet (fnFrame :: m :: globals) n

/-- Modelled from the spec: conversion of a script value to a string element
for string index assignment (spec §4.2 `to_host` rules; vm tests: strings
and runes convert, integers convert to the corresponding rune, nil converts
to the empty element, other types fail with a cannot-be-assigned error). -/
def convElem (v : Value) : Except String (List Char) :=
  match v with
  | .vstr s => .ok s
  | .vint n => .ok [Char.ofNat n.toNat]
  | .vnil => .ok []
  | .vbool _ => .error "type bool cannot be assigned to type string"

/-- Modelled from the spec: string index assignment produces a new string
built from the prefix, the converted element, and the suffix; assigning at
exactly `len(s)` appends; beyond that fails with an index-out-of-range error
(spec §4.2, §8 boundary behaviors). -/
def strIndexAssign (s : List Char) (i : Int) (v : Value) : Except String (List Char) :=
  match convElem v with
  | .error e => .error e
  | .ok c =>
    if i < 0 ∨ (s.length : Int) < i then .error "index out of range"
    else if i = (s.length : Int) then .ok (s ++ c)
    else .ok (s.take i.toNat ++ c ++ s.drop (i.toNat + 1))

/-- Modelled from the spec: `slice(obj, begin, end)` — half-open range over a
sequence; both endpoints must satisfy `0 ≤ begin ≤ end ≤ len(obj)`,
violation is an index-out-of-range error (spec §4.2). -/
def sliceSeq (s : List Char) (b e : Int) : Except String (List Char) :=
  if 0 ≤ b ∧ b ≤ e ∧ e ≤ (s.length : Int) then .ok ((s.drop b.toNat).take (e - b).toNat)
  else .error "index out of range"

/-- A channel: a bounded FIFO buffer plus a closed flag (spec §3, §4.5).
Capacity bookkeeping is irrelevant to the closed-channel claims and is
omitted. -/
structure ChanV where
  buf : List Value
  closed : Bool
  deriving DecidableEq, Repr

/-- Modelled from the spec: channel send — sending on a closed channel fails
(spec §4.2 send/recv, §4.5); otherwise the value enters the FIFO buffer. -/
def chanSend (c : ChanV) (v : Value) : Except String ChanV :=
  if c.closed then .error "send on closed channel"
  else .ok { c with buf := c.buf ++ [v] }

/-- Modelled from the spec and the vm tests: channel receive — buffered
values are yielded in FIFO order; a closed, drained channel yields the
script `nil` (vm test `a = make(chan int64, 2); a <- 1; close(a); <- a; <- a`
expects `nil`); an open, empty channel blocks (`none`). -/
def chanRecv (c : ChanV) : Option (Value × ChanV) :=
  match c.buf with
  | v :: rest => some (v, { c with buf := rest })
  | [] => if c.closed then some (.vnil, c) else none

/-- Receive `k` times from a channel, collecting the received values;
stops early only if a receive would block. -/
def recvList (c : ChanV) (k : Nat) : List Value :=
  match k with
  | 0 => []
  | k + 1 =>
    match chanRecv c with
    | some (v, c2) => v :: recvList c2 k
    | none => []

/-- Modelled from the spec: the lexer rejects integer literals whose value
exceeds the 64-bit signed range — greater than the max or less than the min
fails parsing with an invalid-number error; in-range literals evaluate to
the corresponding `int64` value (spec §8 boundary behaviors; the lexer is
not among the provided sources, only the vm tests exercising it). -/
def parseIntLit (v : Int) : Except String Int :=
  if 9223372036854775807 < v ∨ v < -9223372036854775808 then
    .error ("invalid number: " ++ toString v)
  else .ok v

/-!
The generated LALR parser of the repository, embedded as a recognizer.
The tables below are transcribed verbatim from the goyacc output in the
source tree; the parse loop follows the generated `Parse` function, with
semantic actions dropped (they do not affect acceptance for the inputs at
issue).  The recognizer returns `some 0` when the generated parser would
return 0 (accept) and `some 1` when it would return 1 (syntax error).
-/

namespace Yacc

set_option maxHeartbeats 8000000

/-- Exception table of the generated parser (verbatim, in rows of ten). -/
def yyExca : Array (Array Int) := #[
  #[-1, 0, 1, 3, -2, 142, -1, 1, 1, -1],
  #[-2, 0, -1, 2, 58, 62, -2, 1, -1, 10],
  #[58, 63, -2, 32, -1, 47, 58, 62, -2, 143],
  #[-1, 90, 68, 3, -2, 142, -1, 93, 58, 63],
  #[-2, 59, -1, 94, 16, 54, 58, 54, -2, 72],
  #[-1, 96, 68, 3, -2, 142, -1, 107, 1, 77],
  #[8, 77, 45, 77, 46, 77, 55, 77, 57, 77],
  #[58, 77, 67, 77, 68, 77, 69, 77, 71, 77],
  #[73, 77, 79, 77, -2, 72, -1, 109, 1, 79],
  #[8, 79, 45, 79, 46, 79, 55, 79, 57, 79],
  #[58, 79, 67, 79, 68, 79, 69, 79, 71, 79],
  #[73, 79, 79, 79, -2, 72, -1, 139, 17, 0],
  #[18, 0, -2, 104, -1, 140, 17, 0, 18, 0],
  #[-2, 105, -1, 159, 58, 63, -2, 59, -1, 161],
  #[68, 3, -2, 142, -1, 163, 68, 3, -2, 142],
  #[-1, 165, 68, 1, -2, 50, -1, 168, 68, 3],
  #[-2, 142, -1, 197, 68, 3, -2, 142, -1, 248],
  #[58, 64, -2, 60, -1, 249, 1, 61, 45, 61],
  #[46, 61, 55, 61, 57, 61, 58, 65, 68, 61],
  #[69, 61, 79, 61, -2, 72, -1, 258, 1, 65],
  #[8, 65, 45, 65, 46, 65, 58, 65, 68, 65],
  #[69, 65, 71, 65, 73, 65, 79, 65, -2, 72],
  #[-1, 260, 68, 3, -2, 142, -1, 262, 68, 3],
  #[-2, 142, -1, 276, 1, 25, 45, 25, 46, 25],
  #[68, 25, 69, 25, 79, 25, -2, 123, -1, 278],
  #[1, 27, 45, 27, 46, 27, 68, 27, 69, 27],
  #[79, 27, -2, 125, -1, 280, 1, 29, 45, 29],
  #[46, 29, 68, 29, 69, 29, 79, 29, -2, 123],
  #[-1, 282, 1, 31, 45, 31, 46, 31, 68, 31],
  #[69, 31, 79, 31, -2, 125, -1, 287, 68, 3],
  #[-2, 142, -1, 310, 68, 3, -2, 142, -1, 314],
  #[1, 24, 45, 24, 46, 24, 68, 24, 69, 24],
  #[79, 24, -2, 122, -1, 315, 1, 26, 45, 26],
  #[46, 26, 68, 26, 69, 26, 79, 26, -2, 124],
  #[-1, 316, 1, 28, 45, 28, 46, 28, 68, 28],
  #[69, 28, 79, 28, -2, 122, -1, 317, 1, 30],
  #[45, 30, 46, 30, 68, 30, 69, 30, 79, 30],
  #[-2, 124, -1, 320, 68, 3, -2, 142, -1, 321],
  #[68, 3, -2, 142, -1, 332, 68, 3, -2, 142],
  #[-1, 333, 68, 3, -2, 142, -1, 337, 45, 3],
  #[46, 3, 68, 3, -2, 142, -1, 341, 68, 3],
  #[-2, 142, -1, 349, 45, 3, 46, 3, 68, 3],
  #[-2, 142, -1, 350, 45, 3, 46, 3, 68, 3],
  #[-2, 142, -1, 364, 68, 3, -2, 142, -1, 365],
  #[68, 3, -2, 142]]

/-- Action table of the generated parser (verbatim, in rows of ten). -/
def yyAct : Array (Array Int) := #[
  #[86, 185, 268, 10, 267, 6, 269, 189, 240, 322],
  #[317, 239, 49, 1, 11, 7, 87, 191, 299, 93],
  #[193, 97, 99, 101, 235, 292, 104, 105, 106, 108],
  #[110, 91, 290, 95, 301, 6, 245, 103, 115, 102],
  #[194, 190, 281, 119, 316, 7, 122, 300, 10, 315],
  #[239, 279, 126, 127, 129, 314, 131, 132, 133, 134],
  #[135, 136, 137, 138, 139, 140, 141, 142, 143, 144],
  #[145, 146, 147, 148, 149, 150, 44, 298, 151, 152],
  #[153, 154, 125, 156, 157, 159, 233, 174, 277, 102],
  #[297, 85, 160, 239, 2, 289, 275, 6, 46, 158],
  #[288, 160, 231, 176, 164, 282, 226, 7, 182, 242],
  #[170, 172, 120, 102, 280, 286, 256, 188, 118, 117],
  #[116, 195, 167, 369, 181, 159, 204, 112, 368, 202],
  #[113, 114, 270, 271, 186, 361, 357, 356, 160, 198],
  #[69, 70, 71, 72, 73, 74, 160, 353, 302, 352],
  #[60, 278, 125, 348, 338, 266, 160, 331, 155, 276],
  #[82, 330, 365, 208, 304, 230, 10, 212, 213, 227],
  #[159, 294, 57, 58, 59, 207, 160, 209, 225, 81],
  #[178, 52, 214, 54, 215, 165, 79, 77, 264, 205],
  #[183, 309, 261, 111, 259, 232, 325, 248, 216, 241],
  #[243, 252, 210, 364, 255, 341, 333, 257, 321, 162],
  #[320, 250, 287, 161, 96, 124, 196, 160, 125, 166],
  #[199, 274, 121, 272, 283, 273, 69, 70, 71, 72],
  #[73, 74, 336, 313, 75, 76, 60, 237, 295, 169],
  #[84, 363, 270, 271, 358, 8, 82, 265, 303, 219],
  #[220, 221, 222, 89, 310, 206, 55, 56, 57, 58],
  #[59, 125, 186, 163, 308, 81, 218, 52, 296, 54],
  #[5, 311, 79, 77, 306, 48, 307, 251, 234, 236],
  #[244, 190, 50, 229, 228, 312, 69, 70, 71, 72],
  #[73, 74, 257, 123, 130, 324, 60, 88, 38, 326],
  #[4, 319, 327, 328, 47, 192, 82, 184, 92, 217],
  #[17, 3, 0, 0, 0, 0, 0, 0, 48, 0],
  #[0, 0, 0, 0, 334, 81, 0, 52, 291, 54],
  #[293, 0, 79, 77, 339, 340, 0, 0, 0, 0],
  #[0, 0, 0, 0, 0, 355, 346, 347, 0, 0],
  #[0, 351, 0, 0, 0, 354, 0, 0, 0, 0],
  #[0, 0, 0, 359, 360, 0, 0, 0, 0, 0],
  #[0, 0, 0, 0, 0, 0, 0, 0, 366, 367],
  #[0, 0, 0, 0, 0, 0, 0, 0, 0, 0],
  #[0, 0, 23, 24, 30, 0, 0, 34, 14, 9],
  #[15, 45, 0, 18, 0, 0, 0, 0, 337, 0],
  #[0, 40, 31, 32, 33, 16, 19, 0, 0, 0],
  #[0, 0, 0, 0, 0, 12, 13, 0, 0, 0],
  #[349, 350, 20, 0, 0, 21, 22, 0, 41, 42],
  #[0, 39, 43, 0, 0, 0, 0, 0, 0, 0],
  #[25, 29, 0, 0, 0, 36, 0, 6, 37, 0],
  #[35, 0, 0, 26, 27, 28, 0, 7, 83, 63],
  #[64, 66, 68, 78, 80, 0, 0, 0, 0, 0],
  #[0, 0, 0, 69, 70, 71, 72, 73, 74, 0],
  #[0, 75, 76, 60, 61, 62, 0, 0, 0, 0],
  #[0, 0, 0, 82, 0, 0, 0, 0, 53, 0],
  #[344, 65, 67, 55, 56, 57, 58, 59, 0, 0],
  #[0, 0, 81, 343, 52, 0, 54, 0, 0, 79],
  #[77, 83, 63, 64, 66, 68, 78, 80, 0, 0],
  #[0, 0, 0, 0, 0, 0, 69, 70, 71, 72],
  #[73, 74, 0, 0, 75, 76, 60, 61, 62, 0],
  #[0, 0, 0, 0, 0, 0, 82, 0, 0, 0],
  #[0, 53, 0, 247, 65, 67, 55, 56, 57, 58],
  #[59, 0, 0, 0, 0, 81, 246, 52, 0, 54],
  #[0, 0, 79, 77, 83, 63, 64, 66, 68, 78],
  #[80, 0, 0, 0, 0, 0, 0, 0, 0, 69],
  #[70, 71, 72, 73, 74, 0, 0, 75, 76, 60],
  #[61, 62, 0, 0, 0, 0, 0, 0, 0, 82],
  #[0, 0, 0, 0, 53, 223, 0, 65, 67, 55],
  #[56, 57, 58, 59, 0, 0, 0, 0, 81, 0],
  #[52, 224, 54, 0, 0, 79, 77, 83, 63, 64],
  #[66, 68, 78, 80, 0, 0, 0, 0, 0, 0],
  #[0, 0, 69, 70, 71, 72, 73, 74, 0, 0],
  #[75, 76, 60, 61, 62, 0, 0, 0, 0, 0],
  #[0, 0, 82, 0, 0, 0, 0, 53, 200, 0],
  #[65, 67, 55, 56, 57, 58, 59, 0, 0, 0],
  #[0, 81, 0, 52, 201, 54, 0, 0, 79, 77],
  #[83, 63, 64, 66, 68, 78, 80, 0, 0, 0],
  #[0, 0, 0, 0, 0, 69, 70, 71, 72, 73],
  #[74, 0, 0, 75, 76, 60, 61, 62, 0, 0],
  #[0, 0, 0, 0, 0, 82, 0, 0, 0, 0],
  #[53, 0, 0, 65, 67, 55, 56, 57, 58, 59],
  #[0, 0, 0, 0, 81, 362, 52, 0, 54, 0],
  #[0, 79, 77, 83, 63, 64, 66, 68, 78, 80],
  #[0, 0, 0, 0, 0, 0, 0, 0, 69, 70],
  #[71, 72, 73, 74, 0, 0, 75, 76, 60, 61],
  #[62, 0, 0, 0, 0, 0, 0, 0, 82, 0],
  #[0, 0, 0, 53, 0, 0, 65, 67, 55, 56],
  #[57, 58, 59, 0, 0, 0, 0, 81, 345, 52],
  #[0, 54, 0, 0, 79, 77, 83, 63, 64, 66],
  #[68, 78, 80, 0, 0, 0, 0, 0, 0, 0],
  #[0, 69, 70, 71, 72, 73, 74, 0, 0, 75],
  #[76, 60, 61, 62, 0, 0, 0, 0, 0, 0],
  #[0, 82, 0, 0, 0, 0, 53, 0, 0, 65],
  #[67, 55, 56, 57, 58, 59, 0, 0, 0, 0],
  #[81, 342, 52, 0, 54, 0, 0, 79, 77, 83],
  #[63, 64, 66, 68, 78, 80, 0, 0, 0, 0],
  #[0, 0, 0, 0, 69, 70, 71, 72, 73, 74],
  #[0, 0, 75, 76, 60, 61, 62, 0, 0, 0],
  #[0, 0, 0, 0, 82, 0, 0, 0, 0, 53],
  #[335, 0, 65, 67, 55, 56, 57, 58, 59, 0],
  #[0, 0, 0, 81, 0, 52, 0, 54, 0, 0],
  #[79, 77, 83, 63, 64, 66, 68, 78, 80, 0],
  #[0, 0, 0, 0, 0, 0, 0, 69, 70, 71],
  #[72, 73, 74, 0, 0, 75, 76, 60, 61, 62],
  #[0, 0, 0, 0, 0, 0, 0, 82, 0, 0],
  #[0, 0, 53, 0, 0, 65, 67, 55, 56, 57],
  #[58, 59, 0, 332, 0, 0, 81, 0, 52, 0],
  #[54, 0, 0, 79, 77, 83, 63, 64, 66, 68],
  #[78, 80, 0, 0, 0, 0, 0, 0, 0, 0],
  #[69, 70, 71, 72, 73, 74, 0, 0, 75, 76],
  #[60, 61, 62, 0, 0, 0, 0, 0, 0, 0],
  #[82, 0, 0, 0, 0, 53, 0, 0, 65, 67],
  #[55, 56, 57, 58, 59, 0, 0, 0, 0, 81],
  #[329, 52, 0, 54, 0, 0, 79, 77, 83, 63],
  #[64, 66, 68, 78, 80, 0, 0, 0, 0, 0],
  #[0, 0, 0, 69, 70, 71, 72, 73, 74, 0],
  #[0, 75, 76, 60, 61, 62, 0, 0, 0, 0],
  #[0, 0, 0, 82, 0, 0, 0, 0, 53, 0],
  #[0, 65, 67, 55, 56, 57, 58, 59, 0, 0],
  #[0, 0, 81, 0, 52, 318, 54, 0, 0, 79],
  #[77, 83, 63, 64, 66, 68, 78, 80, 0, 0],
  #[0, 0, 0, 0, 0, 0, 69, 70, 71, 72],
  #[73, 74, 0, 0, 75, 76, 60, 61, 62, 0],
  #[0, 0, 0, 0, 0, 0, 82, 0, 0, 0],
  #[0, 53, 0, 0, 65, 67, 55, 56, 57, 58],
  #[59, 0, 0, 0, 0, 81, 0, 52, 305, 54],
  #[0, 0, 79, 77, 83, 63, 64, 66, 68, 78],
  #[80, 0, 0, 0, 0, 0, 0, 0, 0, 69],
  #[70, 71, 72, 73, 74, 0, 0, 75, 76, 60],
  #[61, 62, 0, 0, 0, 0, 0, 0, 0, 82],
  #[0, 0, 0, 0, 53, 0, 0, 65, 67, 55],
  #[56, 57, 58, 59, 0, 0, 0, 0, 81, 0],
  #[52, 285, 54, 0, 0, 79, 77, 83, 63, 64],
  #[66, 68, 78, 80, 0, 0, 0, 0, 0, 0],
  #[0, 0, 69, 70, 71, 72, 73, 74, 0, 0],
  #[75, 76, 60, 61, 62, 0, 0, 0, 0, 0],
  #[0, 0, 82, 0, 0, 0, 0, 53, 0, 0],
  #[65, 67, 55, 56, 57, 58, 59, 0, 0, 0],
  #[263, 81, 0, 52, 0, 54, 0, 0, 79, 77],
  #[83, 63, 64, 66, 68, 78, 80, 0, 0, 0],
  #[0, 0, 0, 0, 0, 69, 70, 71, 72, 73],
  #[74, 0, 0, 75, 76, 60, 61, 62, 0, 0],
  #[0, 0, 0, 0, 0, 82, 0, 0, 0, 0],
  #[53, 0, 0, 65, 67, 55, 56, 57, 58, 59],
  #[0, 262, 0, 0, 81, 0, 52, 0, 54, 0],
  #[0, 79, 77, 83, 63, 64, 66, 68, 78, 80],
  #[0, 0, 0, 0, 0, 0, 0, 0, 69, 70],
  #[71, 72, 73, 74, 0, 0, 75, 76, 60, 61],
  #[62, 0, 0, 0, 0, 0, 0, 0, 82, 0],
  #[0, 0, 0, 53, 0, 0, 65, 67, 55, 56],
  #[57, 58, 59, 0, 260, 0, 0, 81, 0, 52],
  #[0, 54, 0, 0, 79, 77, 83, 63, 64, 66],
  #[68, 78, 80, 0, 0, 0, 0, 0, 0, 0],
  #[0, 69, 70, 71, 72, 73, 74, 0, 0, 75],
  #[76, 60, 61, 62, 0, 0, 0, 0, 0, 0],
  #[0, 82, 0, 0, 0, 0, 53, 0, 0, 65],
  #[67, 55, 56, 57, 58, 59, 0, 0, 0, 0],
  #[81, 0, 52, 254, 54, 0, 0, 79, 77, 83],
  #[63, 64, 66, 68, 78, 80, 0, 0, 0, 0],
  #[0, 0, 0, 0, 69, 70, 71, 72, 73, 74],
  #[0, 0, 75, 76, 60, 61, 62, 0, 0, 0],
  #[0, 0, 0, 0, 82, 0, 0, 0, 0, 53],
  #[0, 0, 65, 67, 55, 56, 57, 58, 59, 0],
  #[0, 0, 0, 81, 238, 52, 0, 54, 0, 0],
  #[79, 77, 83, 63, 64, 66, 68, 78, 80, 0],
  #[0, 0, 0, 0, 0, 0, 0, 69, 70, 71],
  #[72, 73, 74, 0, 0, 75, 76, 60, 61, 62],
  #[0, 0, 0, 0, 0, 0, 0, 82, 0, 0],
  #[0, 0, 53, 203, 0, 65, 67, 55, 56, 57],
  #[58, 59, 0, 0, 0, 0, 81, 0, 52, 0],
  #[54, 0, 0, 79, 77, 83, 63, 64, 66, 68],
  #[78, 80, 0, 0, 0, 0, 0, 0, 0, 0],
  #[69, 70, 71, 72, 73, 74, 0, 0, 75, 76],
  #[60, 61, 62, 0, 0, 0, 0, 0, 0, 0],
  #[82, 0, 0, 0, 0, 53, 0, 0, 65, 67],
  #[55, 56, 57, 58, 59, 0, 197, 0, 0, 81],
  #[0, 52, 0, 54, 0, 0, 79, 77, 83, 63],
  #[64, 66, 68, 78, 80, 0, 0, 0, 0, 0],
  #[0, 0, 0, 69, 70, 71, 72, 73, 74, 0],
  #[0, 75, 76, 60, 61, 62, 0, 0, 0, 0],
  #[0, 0, 0, 82, 0, 0, 0, 0, 53, 0],
  #[0, 65, 67, 55, 56, 57, 58, 59, 0, 0],
  #[0, 0, 81, 187, 52, 0, 54, 0, 0, 79],
  #[77, 83, 63, 64, 66, 68, 78, 80, 0, 0],
  #[0, 0, 0, 0, 0, 0, 69, 70, 71, 72],
  #[73, 74, 0, 0, 75, 76, 60, 61, 62, 0],
  #[0, 0, 0, 0, 0, 0, 82, 0, 0, 0],
  #[0, 53, 0, 0, 65, 67, 55, 56, 57, 58],
  #[59, 0, 171, 0, 0, 81, 0, 52, 0, 54],
  #[0, 0, 79, 77, 83, 63, 64, 66, 68, 78],
  #[80, 0, 0, 0, 0, 0, 0, 0, 0, 69],
  #[70, 71, 72, 73, 74, 0, 0, 75, 76, 60],
  #[61, 62, 0, 0, 0, 0, 0, 0, 0, 82],
  #[0, 0, 0, 0, 53, 0, 0, 65, 67, 55],
  #[56, 57, 58, 59, 0, 168, 0, 0, 81, 0],
  #[52, 0, 54, 0, 0, 79, 77, 83, 63, 64],
  #[66, 68, 78, 80, 0, 0, 0, 0, 0, 0],
  #[0, 0, 69, 70, 71, 72, 73, 74, 0, 0],
  #[75, 76, 60, 61, 62, 0, 0, 0, 0, 0],
  #[0, 0, 82, 0, 0, 0, 51, 53, 0, 0],
  #[65, 67, 55, 56, 57, 58, 59, 0, 0, 0],
  #[0, 81, 0, 52, 0, 54, 0, 0, 79, 77],
  #[83, 63, 64, 66, 68, 78, 80, 0, 0, 0],
  #[0, 0, 0, 0, 0, 69, 70, 71, 72, 73],
  #[74, 0, 0, 75, 76, 60, 61, 62, 0, 0],
  #[0, 0, 0, 0, 0, 82, 0, 0, 0, 0],
  #[53, 0, 0, 65, 67, 55, 56, 57, 58, 59],
  #[0, 0, 0, 0, 81, 0, 52, 0, 54, 0],
  #[0, 79, 77, 83, 63, 64, 66, 68, 78, 80],
  #[0, 0, 0, 0, 0, 0, 0, 0, 69, 70],
  #[71, 72, 73, 74, 0, 0, 75, 76, 60, 61],
  #[62, 0, 0, 0, 0, 0, 0, 0, 82, 0],
  #[0, 0, 0, 53, 0, 0, 65, 67, 55, 56],
  #[57, 58, 59, 0, 0, 0, 0, 81, 0, 52],
  #[0, 180, 0, 0, 79, 77, 83, 63, 64, 66],
  #[68, 78, 80, 0, 0, 0, 0, 0, 0, 0],
  #[0, 69, 70, 71, 72, 73, 74, 0, 0, 75],
  #[76, 60, 61, 62, 0, 0, 0, 0, 0, 0],
  #[0, 82, 0, 0, 0, 0, 53, 0, 0, 65],
  #[67, 55, 56, 57, 58, 59, 0, 0, 0, 0],
  #[81, 0, 52, 0, 179, 0, 0, 79, 77, 83],
  #[63, 64, 66, 68, 78, 80, 0, 0, 0, 0],
  #[0, 0, 0, 0, 69, 70, 71, 72, 73, 74],
  #[0, 0, 75, 76, 60, 61, 62, 0, 0, 0],
  #[0, 0, 0, 0, 82, 0, 0, 0, 0, 53],
  #[0, 0, 65, 67, 55, 56, 57, 58, 59, 0],
  #[0, 0, 0, 175, 0, 52, 0, 54, 0, 0],
  #[79, 77, 83, 63, 64, 66, 68, 78, 80, 0],
  #[0, 0, 0, 0, 0, 0, 0, 69, 70, 71],
  #[72, 73, 74, 0, 0, 75, 76, 60, 61, 62],
  #[0, 0, 0, 0, 0, 0, 0, 82, 0, 0],
  #[0, 0, 53, 0, 0, 65, 67, 55, 56, 57],
  #[58, 59, 0, 0, 0, 0, 173, 0, 52, 0],
  #[54, 0, 0, 79, 77, 23, 24, 211, 0, 0],
  #[34, 14, 9, 15, 45, 0, 18, 0, 0, 0],
  #[0, 0, 0, 0, 40, 31, 32, 33, 16, 19],
  #[0, 0, 0, 0, 0, 0, 0, 0, 12, 13],
  #[0, 0, 0, 0, 0, 20, 0, 0, 21, 22],
  #[0, 41, 42, 0, 39, 43, 0, 0, 0, 0],
  #[0, 0, 0, 25, 29, 0, 0, 0, 36, 0],
  #[0, 37, 0, 35, 0, 0, 26, 27, 28, 23],
  #[24, 30, 0, 0, 34, 14, 9, 15, 45, 0],
  #[18, 0, 0, 0, 0, 0, 0, 0, 40, 31],
  #[32, 33, 16, 19, 0, 0, 0, 0, 0, 0],
  #[0, 0, 12, 13, 0, 0, 0, 0, 0, 20],
  #[0, 0, 21, 22, 0, 41, 42, 0, 39, 43],
  #[0, 0, 0, 0, 0, 0, 0, 25, 29, 0],
  #[0, 0, 36, 0, 0, 37, 0, 35, 0, 0],
  #[26, 27, 28, 83, 63, 64, 66, 68, 0, 80],
  #[0, 0, 0, 0, 0, 0, 0, 0, 69, 70],
  #[71, 72, 73, 74, 0, 0, 75, 76, 60, 61],
  #[62, 0, 0, 0, 0, 0, 0, 0, 82, 0],
  #[0, 0, 0, 0, 0, 0, 65, 67, 55, 56],
  #[57, 58, 59, 0, 0, 0, 0, 81, 0, 52],
  #[0, 54, 0, 0, 79, 77, 83, 63, 64, 66],
  #[68, 0, 0, 0, 0, 0, 0, 0, 0, 0],
  #[0, 69, 70, 71, 72, 73, 74, 0, 0, 75],
  #[76, 60, 61, 62, 0, 0, 0, 0, 0, 0],
  #[0, 82, 0, 0, 0, 0, 0, 0, 0, 65],
  #[67, 55, 56, 57, 58, 59, 0, 66, 68, 0],
  #[81, 0, 52, 0, 54, 0, 0, 79, 77, 69],
  #[70, 71, 72, 73, 74, 0, 0, 75, 76, 60],
  #[61, 62, 0, 0, 0, 258, 24, 30, 0, 82],
  #[34, 0, 0, 0, 0, 0, 0, 65, 67, 55],
  #[56, 57, 58, 59, 40, 31, 32, 33, 81, 0],
  #[52, 0, 54, 0, 0, 79, 77, 23, 24, 30],
  #[0, 0, 34, 0, 0, 0, 0, 0, 0, 0],
  #[0, 41, 42, 0, 39, 43, 40, 31, 32, 33],
  #[0, 0, 0, 25, 29, 0, 0, 0, 36, 0],
  #[0, 37, 0, 35, 323, 0, 26, 27, 28, 0],
  #[0, 0, 0, 41, 42, 0, 39, 43, 0, 0],
  #[0, 0, 23, 24, 30, 25, 29, 34, 0, 0],
  #[36, 0, 0, 37, 0, 35, 284, 0, 26, 27],
  #[28, 40, 31, 32, 33, 0, 0, 0, 0, 0],
  #[0, 0, 0, 0, 23, 24, 30, 0, 0, 34],
  #[0, 0, 0, 0, 0, 0, 0, 0, 41, 42],
  #[0, 39, 43, 40, 31, 32, 33, 0, 0, 0],
  #[25, 29, 0, 0, 0, 36, 0, 0, 37, 0],
  #[35, 253, 0, 26, 27, 28, 0, 0, 0, 0],
  #[41, 42, 0, 39, 43, 0, 0, 177, 0, 23],
  #[24, 30, 25, 29, 34, 0, 0, 36, 0, 0],
  #[37, 0, 35, 0, 0, 26, 27, 28, 40, 31],
  #[32, 33, 0, 0, 0, 0, 0, 0, 0, 0],
  #[0, 0, 0, 0, 23, 24, 30, 0, 0, 34],
  #[0, 0, 0, 0, 0, 41, 42, 0, 39, 43],
  #[0, 0, 128, 40, 31, 32, 33, 25, 29, 0],
  #[0, 0, 36, 0, 0, 37, 0, 35, 0, 0],
  #[26, 27, 28, 0, 0, 0, 0, 0, 0, 0],
  #[41, 42, 0, 39, 43, 0, 0, 0, 0, 258],
  #[24, 30, 25, 29, 34, 0, 0, 36, 0, 0],
  #[37, 0, 35, 0, 0, 26, 27, 28, 40, 31],
  #[32, 33, 0, 0, 0, 0, 0, 0, 0, 0],
  #[0, 249, 24, 30, 0, 0, 34, 0, 0, 0],
  #[0, 0, 0, 0, 0, 41, 42, 0, 39, 43],
  #[40, 31, 32, 33, 0, 0, 0, 25, 29, 0],
  #[0, 0, 36, 0, 0, 37, 0, 35, 0, 0],
  #[26, 27, 28, 0, 0, 0, 0, 41, 42, 0],
  #[39, 43, 0, 0, 0, 0, 109, 24, 30, 25],
  #[29, 34, 0, 0, 36, 0, 0, 37, 0, 35],
  #[0, 0, 26, 27, 28, 40, 31, 32, 33, 0],
  #[0, 0, 0, 0, 0, 0, 0, 0, 107, 24],
  #[30, 0, 0, 34, 0, 0, 0, 0, 0, 0],
  #[0, 0, 41, 42, 0, 39, 43, 40, 31, 32],
  #[33, 0, 0, 0, 25, 29, 0, 0, 0, 36],
  #[0, 0, 37, 0, 35, 0, 0, 26, 27, 28],
  #[0, 0, 0, 0, 41, 42, 0, 39, 43, 0],
  #[0, 0, 0, 100, 24, 30, 25, 29, 34, 0],
  #[0, 36, 0, 0, 37, 0, 35, 0, 0, 26],
  #[27, 28, 40, 31, 32, 33, 0, 0, 0, 0],
  #[0, 0, 0, 0, 0, 98, 24, 30, 0, 0],
  #[34, 0, 0, 0, 0, 0, 0, 0, 0, 41],
  #[42, 0, 39, 43, 40, 31, 32, 33, 0, 0],
  #[0, 25, 29, 0, 0, 0, 36, 0, 0, 37],
  #[0, 35, 0, 0, 26, 27, 28, 0, 0, 0],
  #[0, 41, 42, 0, 39, 43, 0, 0, 0, 0],
  #[94, 24, 30, 25, 29, 34, 0, 0, 36, 0],
  #[0, 37, 0, 35, 0, 0, 26, 27, 28, 40],
  #[31, 32, 33, 0, 0, 0, 0, 0, 0, 0],
  #[0, 0, 0, 0, 0, 0, 0, 0, 0, 0],
  #[0, 0, 0, 0, 0, 0, 41, 42, 0, 39],
  #[43, 0, 0, 0, 0, 0, 0, 0, 25, 29],
  #[0, 0, 0, 90, 0, 0, 37, 0, 35, 0],
  #[0, 26, 27, 28]]

/-- State-offset table of the generated parser (verbatim, in rows of ten). -/
def yyPact : Array (Array Int) := #[
  #[-64, -1000, 2365, -64, -64, -1000, -1000, -1000, -1000, 278],
  #[1901, 185, -1000, -1000, 2790, 2790, 293, 239, 3106, 147],
  #[2790, 3051, 3019, -33, -1000, 2790, 2790, 2790, 2964, 2932],
  #[-1000, -1000, -1000, -1000, 123, -64, -64, 2790, -1000, 50],
  #[49, 48, 2790, 42, 164, 2790, -1000, 388, -1000, 160],
  #[-1000, 2790, 2755, 2790, 290, 2790, 2790, 2790, 2790, 2790],
  #[2790, 2790, 2790, 2790, 2790, 2790, 2790, 2790, 2790, 2790],
  #[2790, 2790, 2790, 2790, 2790, -1000, -1000, 2790, 2790, 2790],
  #[2790, 2790, 2790, 2790, 2790, 159, 1964, 1964, 146, 196],
  #[-64, 203, 53, 1838, -33, 184, -64, 1775, 41, 2216],
  #[17, 2153, 2700, 2790, 255, 255, 255, -33, 2090, -33],
  #[2027, 278, 38, 2790, 256, 1712, 2790, 277, -32, 1964],
  #[2790, -64, 1649, -1000, 2790, -64, 1964, 641, 2790, 1586],
  #[-1000, 109, 109, 255, 255, 255, 1964, 195, 195, 2538],
  #[2538, 195, 195, 195, 195, 1964, 1964, 1964, 1964, 1964],
  #[1964, 1964, 2427, 1964, 2490, 118, 1964, 2490, -1000, 1964],
  #[-64, -64, 2790, -64, 134, 2291, 2790, 2790, -64, 2790],
  #[130, -64, 2790, 2790, 2790, 2790, 578, 2790, 98, 280],
  #[279, 94, 278, 28, -34, -1000, 180, -1000, 1523, -63],
  #[-1000, 277, 37, 276, -37, 515, 2877, -64, -1000, 273],
  #[2668, -1000, 1460, 2790, 45, -1000, 2845, 126, 1397, 124],
  #[-1000, 180, 1334, 1271, 120, -1000, 218, 87, 197, 88],
  #[80, 43, 34, 2613, -1000, 1208, 44, -1000, -1000, -1000],
  #[145, 29, 24, -64, -48, -64, 103, 2790, -1000, 264],
  #[-1000, 19, -55, -24, 90, -1000, -1000, 2790, 1964, -33],
  #[96, -1000, 1145, -1000, -1000, 1964, -1000, 1964, -33, -1000],
  #[-64, -1000, -64, 2790, -1000, 187, -1000, -1000, -1000, -1000],
  #[2790, 176, -1000, -1000, -1000, -16, -1000, -22, -1000, -27],
  #[-1000, -61, -1000, 1082, -1000, -1000, -1000, -64, 143, 141],
  #[-62, 2581, -1000, 128, -1000, 1964, -1000, -1000, 2790, -1000],
  #[-1000, 2790, 2790, 1019, -1000, -1000, 93, 89, 956, 139],
  #[-64, 893, 175, -64, -1000, -1000, -1000, -1000, -1000, 86],
  #[-64, -64, 138, -1000, -1000, -1000, 830, 452, 767, -1000],
  #[-1000, -1000, -64, -64, 85, -64, -64, -64, -1000, 81],
  #[79, -64, -1000, -1000, 2790, -1000, 69, 68, 214, -64],
  #[-64, -1000, -1000, -1000, 67, 704, -1000, 211, 136, -1000],
  #[-1000, -1000, -1000, 95, -64, -64, 60, 55, -1000, -1000]]

/-- Nonterminal goto-offset table of the generated parser (verbatim, in rows of ten). -/
def yyPgo : Array (Array Int) := #[
  #[0, 13, 311, 245, 310, 6, 4, 309, 0, 76],
  #[14, 308, 1, 307, 12, 7, 305, 298, 2, 94],
  #[300, 270]]

/-- Production left-hand-side table of the generated parser (verbatim, in rows of ten). -/
def yyR1 : Array (Array Int) := #[
  #[0, 1, 1, 2, 2, 2, 3, 3, 3, 3],
  #[3, 3, 3, 3, 3, 3, 3, 3, 3, 3],
  #[3, 3, 3, 3, 3, 3, 3, 3, 3, 3],
  #[3, 3, 3, 4, 4, 4, 7, 7, 7, 7],
  #[7, 7, 7, 6, 18, 5, 16, 16, 16, 12],
  #[13, 13, 13, 14, 14, 14, 15, 15, 11, 10],
  #[10, 10, 9, 9, 9, 9, 17, 17, 17, 17],
  #[17, 17, 8, 8, 8, 8, 8, 8, 8, 8],
  #[8, 8, 8, 8, 8, 8, 8, 8, 8, 8],
  #[8, 8, 8, 8, 8, 8, 8, 8, 8, 8],
  #[8, 8, 8, 8, 8, 8, 8, 8, 8, 8],
  #[8, 8, 8, 8, 8, 8, 8, 8, 8, 8],
  #[8, 8, 8, 8, 8, 8, 8, 8, 8, 8],
  #[8, 8, 8, 8, 8, 8, 8, 8, 8, 8],
  #[8, 8, 19, 19, 20, 20, 21, 21]]

/-- Production length table of the generated parser (verbatim, in rows of ten). -/
def yyR2 : Array (Array Int) := #[
  #[0, 1, 2, 0, 2, 3, 4, 3, 3, 1],
  #[1, 2, 2, 5, 1, 4, 7, 9, 5, 13],
  #[12, 9, 8, 5, 6, 5, 6, 5, 6, 5],
  #[6, 5, 1, 7, 5, 5, 0, 2, 2, 2],
  #[2, 2, 2, 5, 5, 4, 0, 2, 3, 3],
  #[0, 1, 4, 0, 1, 4, 1, 3, 3, 1],
  #[4, 4, 0, 1, 4, 4, 6, 5, 5, 6],
  #[5, 5, 1, 1, 2, 2, 2, 2, 4, 2],
  #[4, 1, 1, 1, 1, 5, 3, 7, 8, 8],
  #[9, 5, 6, 5, 6, 3, 3, 3, 3, 3],
  #[3, 3, 3, 3, 3, 3, 3, 3, 3, 3],
  #[3, 3, 3, 3, 3, 3, 2, 2, 3, 3],
  #[3, 3, 5, 4, 5, 4, 4, 4, 1, 4],
  #[4, 5, 7, 5, 7, 9, 7, 3, 2, 4],
  #[6, 3, 0, 1, 1, 2, 1, 1]]

/-- Check table of the generated parser (verbatim, in rows of ten). -/
def yyChk : Array (Array Int) := #[
  #[-1000, -1, -19, -2, -20, -21, 69, 79, -3, 11],
  #[-8, -10, 37, 38, 10, 12, 27, -4, 15, 28],
  #[44, 47, 48, 4, 5, 62, 75, 76, 77, 63],
  #[6, 24, 25, 26, 9, 72, 67, 70, -17, 53],
  #[23, 50, 51, 54, -9, 13, -19, -20, -21, -14],
  #[4, 55, 72, 56, 74, 61, 62, 63, 64, 65],
  #[41, 42, 43, 17, 18, 59, 19, 60, 20, 31],
  #[32, 33, 34, 35, 36, 39, 40, 78, 21, 77],
  #[22, 70, 51, 16, 55, -9, -8, -8, 4, 14],
  #[67, -14, -11, -8, 4, -10, 67, -8, 4, -8],
  #[4, -8, 72, 70, -8, -8, -8, 4, -8, 4],
  #[-8, 70, 4, -19, -19, -8, 70, 70, 70, -8],
  #[70, 58, -8, -3, 55, 58, -8, -8, 57, -8],
  #[4, -8, -8, -8, -8, -8, -8, -8, -8, -8],
  #[-8, -8, -8, -8, -8, -8, -8, -8, -8, -8],
  #[-8, -8, -8, -8, -8, -9, -8, -8, -10, -8],
  #[58, 67, 13, 67, -1, -19, 16, 69, 67, 55],
  #[-1, 67, 70, 70, 70, 70, -8, 57, -9, 74],
  #[74, -14, 70, -9, -13, -12, 6, 71, -8, -15],
  #[4, 49, -16, 52, 72, -8, -19, 67, -10, -19],
  #[57, 73, -8, 57, 8, 71, -19, -1, -8, -1],
  #[68, 6, -8, -8, -1, -10, 68, -7, -19, -9],
  #[-9, -9, -9, 57, 73, -8, 8, 71, 4, 4],
  #[71, 8, -14, 58, -19, 58, -19, 57, 71, 74],
  #[71, -15, 72, -15, 4, 73, 71, 58, -8, 4],
  #[-1, 4, -8, 73, 73, -8, 71, -8, 4, 68],
  #[67, 68, 67, 69, 68, 29, 68, -6, -18, -5],
  #[45, 46, -6, -5, -18, 8, 71, 8, 71, 8],
  #[71, 8, 71, -8, 73, 73, 71, 67, 71, 71],
  #[8, -19, 73, -19, 68, -8, 4, 71, 58, 73],
  #[71, 58, 58, -8, 68, 73, -1, -1, -8, 4],
  #[67, -8, -10, 57, 71, 71, 71, 71, 73, -1],
  #[67, 67, 71, 73, -12, 68, -8, -8, -8, 71],
  #[68, 68, 67, 67, -1, 57, 57, -19, 68, -1],
  #[-1, 67, 71, 71, 58, 71, -1, -1, 68, -19],
  #[-19, -1, 68, 68, -1, -8, 68, 68, 30, -1],
  #[-1, 68, 71, 30, 67, 67, -1, -1, 68, 68]]

/-- Default-action table of the generated parser (verbatim, in rows of ten). -/
def yyDef : Array (Array Int) := #[
  #[-2, -2, -2, 142, 143, 144, 146, 147, 4, 53],
  #[-2, 0, 9, 10, 62, 0, 0, 14, 53, 0],
  #[0, 0, 0, 72, 73, 0, 0, 0, 0, 0],
  #[81, 82, 83, 84, 0, 142, 142, 0, 128, 0],
  #[0, 0, 0, 0, 0, 0, 2, -2, 145, 0],
  #[54, 0, 0, 0, 0, 0, 0, 0, 0, 0],
  #[0, 0, 0, 0, 0, 0, 0, 0, 0, 0],
  #[0, 0, 0, 0, 0, 116, 117, 0, 0, 0],
  #[0, 62, 0, 0, 62, 11, 63, 12, 0, 0],
  #[-2, 0, 0, -2, -2, 0, -2, 0, 72, 0],
  #[72, 0, 0, 62, 74, 75, 76, -2, 0, -2],
  #[0, 53, 0, 62, 50, 0, 0, 0, 46, 138],
  #[0, 142, 0, 5, 62, 142, 7, 0, 0, 0],
  #[86, 96, 97, 98, 99, 100, 101, 102, 103, -2],
  #[-2, 106, 107, 108, 109, 110, 111, 112, 113, 114],
  #[115, 118, 119, 120, 121, 0, 137, 141, 8, -2],
  #[142, -2, 0, -2, 0, -2, 0, 0, -2, 62],
  #[0, 36, 62, 62, 62, 62, 0, 0, 0, 0],
  #[0, 0, 53, 142, 142, 51, 0, 95, 0, 0],
  #[56, 0, 0, 0, 0, 0, 0, -2, 6, 0],
  #[0, 127, 0, 0, 0, 125, 0, 0, 0, 0],
  #[15, 81, 0, 0, 0, 58, 0, 0, 0, 0],
  #[0, 0, 0, 0, 126, 0, 0, 123, 78, 80],
  #[0, 0, 0, 142, 0, 142, 0, 0, 129, 0],
  #[130, 0, 0, 0, 0, 47, 139, 0, -2, -2],
  #[0, 55, 0, 70, 71, 85, 124, 64, -2, 13],
  #[-2, 34, -2, 0, 18, 0, 23, 39, 41, 42],
  #[62, 0, 37, 38, 40, 0, -2, 0, -2, 0],
  #[-2, 0, -2, 0, 67, 68, 122, -2, 0, 0],
  #[0, 0, 91, 0, 93, 49, 57, 131, 0, 48],
  #[133, 0, 0, 0, 35, 69, 0, 0, 0, 0],
  #[-2, 63, 0, 142, -2, -2, -2, -2, 66, 0],
  #[-2, -2, 0, 92, 52, 94, 0, 0, 0, 140],
  #[33, 16, -2, -2, 0, 142, 142, -2, 87, 0],
  #[0, -2, 132, 134, 0, 136, 0, 0, 22, -2],
  #[-2, 45, 88, 89, 0, 0, 17, 21, 0, 43],
  #[44, 90, 135, 0, -2, -2, 0, 0, 20, 19]]

/-- Single-character token translation table (verbatim, in rows of ten). -/
def yyTok1 : Array (Array Int) := #[
  #[1, 3, 3, 3, 3, 3, 3, 3, 3, 3],
  #[79, 3, 3, 3, 3, 3, 3, 3, 3, 3],
  #[3, 3, 3, 3, 3, 3, 3, 3, 3, 3],
  #[3, 3, 3, 75, 3, 3, 3, 65, 77, 3],
  #[70, 71, 63, 61, 58, 62, 74, 64, 3, 3],
  #[3, 3, 3, 3, 3, 3, 3, 3, 57, 69],
  #[60, 55, 59, 56, 3, 3, 3, 3, 3, 3],
  #[3, 3, 3, 3, 3, 3, 3, 3, 3, 3],
  #[3, 3, 3, 3, 3, 3, 3, 3, 3, 3],
  #[3, 72, 3, 73, 76, 3, 3, 3, 3, 3],
  #[3, 3, 3, 3, 3, 3, 3, 3, 3, 3],
  #[3, 3, 3, 3, 3, 3, 3, 3, 3, 3],
  #[3, 3, 3, 67, 78, 68]]

/-- Named-token translation table (verbatim, in rows of ten). -/
def yyTok2 : Array (Array Int) := #[
  #[2, 3, 4, 5, 6, 7, 8, 9, 10, 11],
  #[12, 13, 14, 15, 16, 17, 18, 19, 20, 21],
  #[22, 23, 24, 25, 26, 27, 28, 29, 30, 31],
  #[32, 33, 34, 35, 36, 37, 38, 39, 40, 41],
  #[42, 43, 44, 45, 46, 47, 48, 49, 50, 51],
  #[52, 53, 54, 66]]

/-- Sparse token translation table (verbatim). -/
def yyTok3 : Array (Array Int) := #[
  #[0]]

/-- `yyFlag` constant of the generated parser. -/
def yyFlag : Int := -1000

/-- `yyLast` constant of the generated parser. -/
def yyLastN : Int := 3184

/-- Table lookup at a natural-number index (all indices reached during a
run of the recognizer are in range; out-of-range reads default to 0). -/
def tgetN (a : Array (Array Int)) (i : Nat) : Int := (a.getD (i / 10) #[]).getD (i % 10) 0

/-- Table lookup at an integer index. -/
def tget (a : Array (Array Int)) (i : Int) : Int := tgetN a i.toNat

/-- `yylex1` of the generated parser: translate a character code coming from
the lexer into the parser's internal token numbering.  End of input
(`char ≤ 0`) maps to the end token; characters below 126 map through
`yyTok1`; characters in the private range map through `yyTok2`; `yyTok3`
is empty here, so anything else falls back to the unknown-token entry. -/
def charToken (c : Int) : Int :=
  let t :=
    if c ≤ 0 then tgetN yyTok1 0
    else if c < 126 then tget yyTok1 c
    else if 57344 ≤ c ∧ c < 57344 + 54 then tget yyTok2 (c - 57344)
    else 0
  if t = 0 then tgetN yyTok2 1 else t

/-- Parser machine state: the state stack (top first), the current state,
the remaining input character codes, the lookahead character and token
(`-1` when absent), and the error-recovery flag. -/
structure PState where
  stack : List Int
  state : Int
  input : List Int
  char : Int
  token : Int
  errflag : Int

/-- The three `goto` targets of the generated parse loop: push the current
state (`yystack`), try a shift (`yynewstate`), take the default action
(`yydefault`). -/
inductive Phase where
  | stk : Phase
  | new : Phase
  | dflt : Phase

/-- Fetch the lookahead if absent, as the generated parser does before
consulting a token-indexed table.  The lexer yields the next character code
of the input and `0` once the input is exhausted. -/
def ensureLook (s : PState) : PState :=
  if s.char < 0 then
    match s.input with
    | [] => { s with char := 0, token := charToken 0, input := [] }
    | c :: rest => { s with char := c, token := charToken c, input := rest }
  else s

/-- First loop of the exception-table lookup: find the entry for the given
state (`yyExca[xi] = -1 ∧ yyExca[xi+1] = state`). -/
def excaFindState (xi : Nat) (st : Int) (fuel : Nat) : Nat :=
  match fuel with
  | 0 => xi
  | fuel + 1 =>
    if tgetN yyExca xi = -1 ∧ tgetN yyExca (xi + 1) = st then xi
    else excaFindState (xi + 2) st fuel

/-- Second loop of the exception-table lookup: scan the state's entries for
the lookahead token (or the table section's negative terminator). -/
def excaScan (xi : Nat) (tok : Int) (fuel : Nat) : Int :=
  match fuel with
  | 0 => -1
  | fuel + 1 =>
    let e := tgetN yyExca xi
    if e < 0 ∨ e = tok then tgetN yyExca (xi + 1)
    else excaScan (xi + 2) tok fuel

/-- Exception-table lookup (`yyDef[state] = -2` case of the generated
parser). -/
def excaLookup (st tok : Int) : Int :=
  excaScan (excaFindState 0 st 444 + 2) tok 444

/-- Error recovery of the generated parser: pop states until one admits a
shift on the error token; returns the error-shift target state and the
stack as left by the popping, or `none` when the stack is exhausted. -/
def popLoop (stk : List Int) : Option (Int × List Int) :=
  match stk with
  | [] => none
  | st :: rest =>
    let n := tget yyPact st + 2
    if (0 ≤ n ∧ n < yyLastN) ∧ tget yyChk (tget yyAct n) = 2 then
      some (tget yyAct n, st :: rest)
    else popLoop rest

/-- The generated parse loop, transcribed from the goyacc `Parse` function
with semantic values dropped: `some 0` is accept, `some 1` is the parser's
error return, `none` means the step budget ran out (never the case for the
inputs considered here). -/
def prun (fuel : Nat) (s : PState) (ph : Phase) : Option Int :=
  match fuel with
  | 0 => none
  | fuel + 1 =>
    match ph with
    | .stk => prun fuel { s with stack := s.state :: s.stack } .new
    | .new =>
      let n := tget yyPact s.state
      if n ≤ yyFlag then prun fuel s .dflt
      else
        let s := ensureLook s
        let n := n + s.token
        if n < 0 ∨ yyLastN ≤ n then prun fuel s .dflt
        else
          let m := tget yyAct n
          if tget yyChk m = s.token then
            prun fuel
              { s with char := -1, token := -1, state := m,
                       errflag := if 0 < s.errflag then s.errflag - 1 else s.errflag } .stk
          else prun fuel s .dflt
    | .dflt =>
      let n0 := tget yyDef s.state
      let s := if n0 = -2 then ensureLook s else s
      let n := if n0 = -2 then excaLookup s.state s.token else n0
      if n0 = -2 ∧ n < 0 then some 0
      else if n = 0 then
        if s.errflag = 3 then
          if s.token = 1 then some 1
          else prun fuel { s with char := -1, token := -1 } .new
        else
          match popLoop s.stack with
          | some (st, stk) => prun fuel { s with errflag := 3, state := st, stack := stk } .stk
          | none => some 1
      else
        let stack2 := s.stack.drop (tget yyR2 n).toNat
        let m := tget yyR1 n
        let g := tget yyPgo m
        let j := g + stack2.headD 0 + 1
        let newstate :=
          if yyLastN ≤ j then tget yyAct g
          else if tget yyChk (tget yyAct j) = -m then tget yyAct j
          else tget yyAct g
        prun fuel { s with state := newstate, stack := stack2 } .stk

/-- Run the embedded parser on a stream of lexer character codes, from the
generated parser's initial configuration. -/
def parseChars (chars : List Int) : Option Int :=
  prun 500 { stack := [], state := 0, input := chars, char := -1, token := -1, errflag := 0 } .stk

end Yacc

/-- Expressions as far as the parser reduce actions under study need them:
an identifier, a number literal, or any other expression (abstracted by a
tag). -/
inductive PExpr where
  | ident : String → PExpr
  | num : Int → PExpr
  | other : Nat → PExpr
  deriving DecidableEq, Repr

/-- Statements as far as the parser reduce actions under study need them:
a `case` clause (expression plus body), a `default` clause, a `var`
statement, and any other statement (abstracted by a tag). -/
inductive PStmt where
  | caseStmt : PExpr → List PStmt → PStmt
  | defaultStmt : List PStmt → PStmt
  | varStmt : List String → List PExpr → PStmt
  | otherStmt : Nat → PStmt

/-- Parser reduce action for a single-expression `case` clause (grammar
production `CASE expr ':' compstmt`, reduce case 43 of the generated
parser): one `CaseStmt` holding the expression and the body. -/
def reduceSingleCase (e : PExpr) (body : List PStmt) : PStmt :=
  .caseStmt e body

/-- Parser reduce action for a multi-expression `case` clause (grammar
production `CASE expr_many ':' compstmt`, reduce case 44 of the generated
parser): starting from an empty list, append one `CaseStmt` per listed
expression, every one sharing the same body statement list. -/
def reduceMultiCase (es : List PExpr) (body : List PStmt) : List PStmt :=
  es.foldl (fun cases e => cases ++ [PStmt.caseStmt e body]) []

/-- Parser reduce action for a `var` statement (grammar production
`VAR expr_idents '=' expr_many`, reduce case 6 of the generated parser):
a `VarStmt` holding the identifier list and the expression list. -/
def reduceVarStmt (names : List String) (es : List PExpr) : PStmt :=
  .varStmt names es

/-- Modelled from the spec: switch execution compares the selector against
each case expression in order and executes the first matching case's body
(spec §4.4 "Switch": first match wins); non-case clauses in the list are
skipped here, and `none` means no case matched. -/
def runSwitch (sel : PExpr) (cases : List PStmt) : Option (List PStmt) :=
  match cases with
  | [] => none
  | .caseStmt e body :: rest => if e = sel then some body else runSwitch sel rest
  | _ :: rest => runSwitch sel rest

/-- Modelled from the spec: execution of a `var` statement pairs names with
values left to right, defining each in the current scope; excess right-hand
values are discarded; the statement's result value is the last right-hand
value (spec §4.3 l-values count-mismatch rules; vm test `var a = 1, 2`
yields `2` with `a = 1`). -/
def execVarStmt (names : List String) (vals : List Value) (env : Env) : Env × Option Value :=
  ((names.zip vals).foldl (fun e p => envDefine e p.1 p.2) env, vals.getLast?)

/-- Statement shapes for the cancellation model: a basic statement (one
statement execution, one clock tick), sequencing, an unconditionally
repeating loop (`for { … }` and its nestings), and a blocked channel wait
that periodically re-checks the cancellation flag (spec §5 suspension
points). -/
inductive CStmt where
  | basic : CStmt
  | seqC : CStmt → CStmt → CStmt
  | forever : CStmt → CStmt
  | recvBlock : CStmt

/-- Outcome of executing a statement under a cancellation context: normal
completion at a clock time, an `Interrupt` throw at a clock time, or fuel
exhaustion of the step-indexed model. -/
inductive CRes where
  | done : Nat → CRes
  | intr : Nat → CRes
  | fuelOut : CRes
  deriving DecidableEq, Repr

/-- Modelled from the spec: the statement executor consults the shared
cancellation flag before executing each statement and before each iteration
of each loop, returning the Interrupt throw as soon as the flag is observed
set; a blocked channel wait re-checks the flag as time advances
(spec §4.4 cancellation check, §5 cancellation semantics).  `c` is the
host's cancellation flag as a function of time; the clock advances by one
on every basic statement execution and on every blocked-wait poll. -/
def cexec (c : Nat → Bool) (s : CStmt) (t : Nat) (fuel : Nat) : CRes :=
  match fuel with
  | 0 => .fuelOut
  | fuel + 1 =>
    if c t then .intr t
    else
      match s with
      | .basic => .done (t + 1)
      | .seqC a b =>
        match cexec c a t fuel with
        | .done t2 => cexec c b t2 fuel
        | r => r
      | .forever body =>
        match cexec c body t fuel with
        | .done t2 => cexec c (.forever body) t2 fuel
        | r => r
      | .recvBlock => cexec c .recvBlock (t + 1) fuel

/-- The cancellation flag is monotonic: once set it never clears
(spec §3 invariants). -/
def Mono (c : Nat → Bool) : Prop := ∀ t, c t = true → c (t + 1) = true

/-- Size of a cancellation-model statement, used to bound the fuel the
executor needs before it either finishes or observes the flag. -/
def csize (s : CStmt) : Nat :=
  match s with
  | .basic => 1
  | .seqC a b => csize a + csize b + 1
  | .forever body => csize body + 1
  | .recvBlock => 1

/-!
Embedding of `ast/astutil/walk.go`.  The statement, expression and operator
node kinds are the ones the walker's type switches handle; fields the
walker never touches and that do not affect traversal (positions, literal
payloads, type annotations) are kept only where they identify a node.
Wherever the Go code holds a possibly-nil interface value the embedding
uses `Option`.  A switch statement's `Cases` list elements are represented
by their case content (expression list and body), matching the walker's
unconditional cast to `*ast.SwitchCaseStmt`; the `exprs` field of a case
and the operand of a `len` expression are modelled from the spec (the
`ast` package itself is not among the provided sources) — the walker
does not descend into either, exactly as in the source.
-/

mutual

inductive WStmt where
  | stmtsStmt : List (Option WStmt) → WStmt
  | breakStmt : WStmt
  | continueStmt : WStmt
  | letMapItemStmt : List (Option WExpr) → Option WExpr → WStmt
  | returnStmt : List (Option WExpr) → WStmt
  | exprStmt : Option WExpr → WStmt
  | varStmt : List String → List (Option WExpr) → WStmt
  | letsStmt : List (Option WExpr) → List (Option WExpr) → WStmt
  | ifStmt : Option WExpr → Option WStmt → List (Option WStmt) → Option WStmt → WStmt
  | tryStmt : Option WStmt → Option WStmt → Option WStmt → WStmt
  | loopStmt : Option WExpr → Option WStmt → WStmt
  | forStmt : List String → Option WExpr → Option WStmt → WStmt
  | cforStmt : Option WStmt → Option WExpr → Option WExpr → Option WStmt → WStmt
  | throwStmt : Option WExpr → WStmt
  | moduleStmt : String → Option WStmt → WStmt
  | switchStmt : Option WExpr → List (List (Option WExpr) × Option WStmt) → Option WStmt → WStmt
  | goroutineStmt : Option WExpr → WStmt

inductive WExpr where
  | opExpr : Option WOperator → WExpr
  | lenExpr : Option WExpr → WExpr
  | literalExpr : WExpr
  | identExpr : String → WExpr
  | memberExpr : Option WExpr → String → WExpr
  | itemExpr : Option WExpr → Option WExpr → WExpr
  | sliceExpr : Option WExpr → Option WExpr → Option WExpr → WExpr
  | arrayExpr : List (Option WExpr) → WExpr
  | mapExpr : List (Option WExpr × Option WExpr) → WExpr
  | derefExpr : Option WExpr → WExpr
  | addrExpr : Option WExpr → WExpr
  | unaryExpr : String → Option WExpr → WExpr
  | parenExpr : Option WExpr → WExpr
  | funcExpr : Option WStmt → WExpr
  | letsExpr : List (Option WExpr) → List (Option WExpr) → WExpr
  | anonCallExpr : Option WExpr → List (Option WExpr) → Bool → Bool → WExpr
  | callExpr : List (Option WExpr) → Bool → Bool → WExpr
  | ternaryOpExpr : Option WExpr → Option WExpr → Option WExpr → WExpr
  | importExpr : Option WExpr → WExpr
  | makeExpr : Option WExpr → Option WExpr → WExpr
  | chanExpr : Option WExpr → Option WExpr → WExpr
  | includeExpr : Option WExpr → Option WExpr → WExpr

inductive WOperator where
  | binaryOp : Option WExpr → Option WExpr → WOperator
  | comparisonOp : Option WExpr → Option WExpr → WOperator
  | addOp : Option WExpr → Option WExpr → WOperator
  | multiplyOp : Option WExpr → Option WExpr → WOperator

end

/-- A node handed to the `WalkFunc`: a statement, an expression, or an
operator (`interface-typed` in the source). -/
inductive WNode where
  | stmtN : WStmt → WNode
  | exprN : WExpr → WNode
  | opN : WOperator → WNode

mutual

/-- `walkStmt` of `ast/astutil/walk.go`: short-circuits when the statement
or the walk function is nil, applies the function to the statement node,
then descends into the node's children exactly as the source's type switch
does (for a switch statement: the selector, every case clause's body, and
the default — case clause nodes and their expressions are not visited). -/
def walkStmt {ε : Type} (s : Option WStmt) (f : Option (WNode → Option ε)) : Option ε :=
  match s, f with
  | none, _ => none
  | some _, none => none
  | some st, some g =>
    g (.stmtN st) <|>
    match st with
    | .stmtsStmt l => walkStmts l (some g)
    | .breakStmt => none
    | .continueStmt => none
    | .letMapItemStmt lhss rhs => walkExpr rhs (some g) <|> walkExprs lhss (some g)
    | .returnStmt exprs => walkExprs exprs (some g)
    | .exprStmt e => walkExpr e (some g)
    | .varStmt _ exprs => walkExprs exprs (some g)
    | .letsStmt lhss rhss => walkExprs rhss (some g) <|> walkExprs lhss (some g)
    | .ifStmt i th ei el =>
      walkExpr i (some g) <|> walkStmt th (some g) <|> walkStmts ei (some g) <|>
        walkStmt el (some g)
    | .tryStmt tr ca fi => walkStmt tr (some g) <|> walkStmt ca (some g) <|> walkStmt fi (some g)
    | .loopStmt e st2 => walkExpr e (some g) <|> walkStmt st2 (some g)
    | .forStmt _ v st2 => walkExpr v (some g) <|> walkStmt st2 (some g)
    | .cforStmt s1 e2 e3 st2 =>
      walkStmt s1 (some g) <|> walkExpr e2 (some g) <|> walkExpr e3 (some g) <|>
        walkStmt st2 (some g)
    | .throwStmt e => walkExpr e (some g)
    | .moduleStmt _ st2 => walkStmt st2 (some g)
    | .switchStmt e cs dflt =>
      walkExpr e (some g) <|> walkCaseBodies cs (some g) <|> walkStmt dflt (some g)
    | .goroutineStmt e => walkExpr e (some g)
termination_by sizeOf s

/-- `walkStmts` of the source: walk each statement of a list, stopping at
the first error. -/
def walkStmts {ε : Type} (l : List (Option WStmt)) (f : Option (WNode → Option ε)) : Option ε :=
  match l with
  | [] => none
  | s :: rest => walkStmt s f <|> walkStmts rest f
termination_by sizeOf l

/-- `walkExprs` of the source: walk each expression of a list, stopping at
the first error. -/
def walkExprs {ε : Type} (l : List (Option WExpr)) (f : Option (WNode → Option ε)) : Option ε :=
  match l with
  | [] => none
  | e :: rest => walkExpr e f <|> walkExprs rest f
termination_by sizeOf l

/-- The loop over `stmt.Cases` in the source's `SwitchStmt` branch: each
element is cast to a case clause and only its body statement is walked. -/
def walkCaseBodies {ε : Type} (cs : List (List (Option WExpr) × Option WStmt))
    (f : Option (WNode → Option ε)) : Option ε :=
  match cs with
  | [] => none
  | (_, body) :: rest => walkStmt body f <|> walkCaseBodies rest f
termination_by sizeOf cs

/-- The loop over `expr.Keys` and `expr.Values` in the source's `MapExpr`
branch: key then value, entry by entry. -/
def walkEntries {ε : Type} (l : List (Option WExpr × Option WExpr))
    (f : Option (WNode → Option ε)) : Option ε :=
  match l with
  | [] => none
  | (k, v) :: rest => walkExpr k f <|> walkExpr v f <|> walkEntries rest f
termination_by sizeOf l

/-- `walkExpr` of `ast/astutil/walk.go`: short-circuits on nil, applies the
function to the expression node, then descends per the source's type
switch.  For an anonymous call the source walks the callee and then a
freshly synthesized `CallExpr` carrying the anonymous call's argument
fields. -/
def walkExpr {ε : Type} (e : Option WExpr) (f : Option (WNode → Option ε)) : Option ε :=
  match e, f with
  | none, _ => none
  | some _, none => none
  | some ex, some g =>
    g (.exprN ex) <|>
    match ex with
    | .opExpr op => walkOperator op (some g)
    | .lenExpr _ => none
    | .literalExpr => none
    | .identExpr _ => none
    | .memberExpr e2 _ => walkExpr e2 (some g)
    | .itemExpr item idx => walkExpr item (some g) <|> walkExpr idx (some g)
    | .sliceExpr item b en =>
      walkExpr item (some g) <|> walkExpr b (some g) <|> walkExpr en (some g)
    | .arrayExpr exprs => walkExprs exprs (some g)
    | .mapExpr entries => walkEntries entries (some g)
    | .derefExpr e2 => walkExpr e2 (some g)
    | .addrExpr e2 => walkExpr e2 (some g)
    | .unaryExpr _ e2 => walkExpr e2 (some g)
    | .parenExpr sub => walkExpr sub (some g)
    | .funcExpr st2 => walkStmt st2 (some g)
    | .letsExpr lhss rhss => walkExprs lhss (some g) <|> walkExprs rhss (some g)
    | .anonCallExpr e2 subExprs va goF =>
      walkExpr e2 (some g) <|> walkExpr (some (.callExpr subExprs va goF)) (some g)
    | .callExpr subExprs _ _ => walkExprs subExprs (some g)
    | .ternaryOpExpr c l r =>
      walkExpr c (some g) <|> walkExpr l (some g) <|> walkExpr r (some g)
    | .importExpr nm => walkExpr nm (some g)
    | .makeExpr le ce => walkExpr le (some g) <|> walkExpr ce (some g)
    | .chanExpr l r => walkExpr r (some g) <|> walkExpr l (some g)
    | .includeExpr it ls => walkExpr it (some g) <|> walkExpr ls (some g)
termination_by sizeOf e
decreasing_by all_goals first
  | decreasing_tactic
  | (simp_wf; cases e2 <;> simp)

/-- `walkOperator` of `ast/astutil/walk.go`: short-circuits on nil, applies
the function to the operator node, then walks both operand expressions of
each operator kind. -/
def walkOperator {ε : Type} (o : Option WOperator) (f : Option (WNode → Option ε)) : Option ε :=
  match o, f with
  | none, _ => none
  | some _, none => none
  | some op, some g =>
    g (.opN op) <|>
    match op with
    | .binaryOp l r => walkExpr l (some g) <|> walkExpr r (some g)
    | .comparisonOp l r => walkExpr l (some g) <|> walkExpr r (some g)
    | .addOp l r => walkExpr l (some g) <|> walkExpr r (some g)
    | .multiplyOp l r => walkExpr l (some g) <|> walkExpr r (some g)
termination_by sizeOf o

end

/-- `Walk` of `ast/astutil/walk.go`: walk the AST rooted at a statement,
passing each visited node to the walk function; a non-nil error aborts the
walk and is returned. -/
def Walk {ε : Type} (s : Option WStmt) (f : Option (WNode → Option ε)) : Option ε :=
  walkStmt s f

/-- The first non-nil result of applying the walk function along a list of
nodes: the error with which a walk over exactly those nodes, in that
order, stops. -/
def firstSome {ε : Type} (g : WNode → Option ε) (l : List WNode) : Option ε :=
  match l with
  | [] => none
  | n :: rest => g n <|> firstSome g rest

mutual

/-- The sequence of nodes the walker passes to its function when started on
a statement, in visiting order.  It mirrors `walkStmt` clause by clause;
in particular, for a switch statement only the selector, the case bodies
and the default are descended into, and for an anonymous call a
synthesized `CallExpr` node carrying the call's argument fields appears
after the callee's subtree. -/
def visitStmt : Option WStmt → List WNode
  | none => []
  | some st =>
    .stmtN st ::
      match st with
      | .stmtsStmt l => visitStmts l
      | .breakStmt => []
      | .continueStmt => []
      | .letMapItemStmt lhss rhs => visitExpr rhs ++ visitExprs lhss
      | .returnStmt exprs => visitExprs exprs
      | .exprStmt e => visitExpr e
      | .varStmt _ exprs => visitExprs exprs
      | .letsStmt lhss rhss => visitExprs rhss ++ visitExprs lhss
      | .ifStmt i th ei el => visitExpr i ++ visitStmt th ++ visitStmts ei ++ visitStmt el
      | .tryStmt tr ca fi => visitStmt tr ++ visitStmt ca ++ visitStmt fi
      | .loopStmt e st2 => visitExpr e ++ visitStmt st2
      | .forStmt _ v st2 => visitExpr v ++ visitStmt st2
      | .cforStmt s1 e2 e3 st2 => visitStmt s1 ++ visitExpr e2 ++ visitExpr e3 ++ visitStmt st2
      | .throwStmt e => visitExpr e
      | .moduleStmt _ st2 => visitStmt st2
      | .switchStmt e cs dflt => visitExpr e ++ visitCaseBodies cs ++ visitStmt dflt
      | .goroutineStmt e => visitExpr e
termination_by s => sizeOf s

/-- Visiting order over a statement list. -/
def visitStmts : List (Option WStmt) → List WNode
  | [] => []
  | s :: rest => visitStmt s ++ visitStmts rest
termination_by l => sizeOf l

/-- Visiting order over an expression list. -/
def visitExprs : List (Option WExpr) → List WNode
  | [] => []
  | e :: rest => visitExpr e ++ visitExprs rest
termination_by l => sizeOf l

/-- Visiting order over switch case clauses: only each case's body. -/
def visitCaseBodies : List (List (Option WExpr) × Option WStmt) → List WNode
  | [] => []
  | (_, body) :: rest => visitStmt body ++ visitCaseBodies rest
termination_by cs => sizeOf cs

/-- Visiting order over map-literal entries: key then value. -/
def visitEntries : List (Option WExpr × Option WExpr) → List WNode
  | [] => []
  | (k, v) :: rest => visitExpr k ++ visitExpr v ++ visitEntries rest
termination_by l => sizeOf l

/-- The sequence of nodes the walker passes to its function when started on
an expression, in visiting order. -/
def visitExpr : Option WExpr → List WNode
  | none => []
  | some ex =>
    .exprN ex ::
      match ex with
      | .opExpr op => visitOperator op
      | .lenExpr _ => []
      | .literalExpr => []
      | .identExpr _ => []
      | .memberExpr e2 _ => visitExpr e2
      | .itemExpr item idx => visitExpr item ++ visitExpr idx
      | .sliceExpr item b en => visitExpr item ++ visitExpr b ++ visitExpr en
      | .arrayExpr exprs => visitExprs exprs
      | .mapExpr entries => visitEntries entries
      | .derefExpr e2 => visitExpr e2
      | .addrExpr e2 => visitExpr e2
      | .unaryExpr _ e2 => visitExpr e2
      | .parenExpr sub => visitExpr sub
      | .funcExpr st2 => visitStmt st2
      | .letsExpr lhss rhss => visitExprs lhss ++ visitExprs rhss
      | .anonCallExpr e2 subExprs va goF =>
        visitExpr e2 ++ visitExpr (some (.callExpr subExprs va goF))
      | .callExpr subExprs _ _ => visitExprs subExprs
      | .ternaryOpExpr c l r => visitExpr c ++ visitExpr l ++ visitExpr r
      | .importExpr nm => visitExpr nm
      | .makeExpr le ce => visitExpr le ++ visitExpr ce
      | .chanExpr l r => visitExpr r ++ visitExpr l
      | .includeExpr it ls => visitExpr it ++ visitExpr ls
termination_by e => sizeOf e
decreasing_by all_goals first
  | decreasing_tactic
  | (simp_wf; cases e2 <;> simp)

/-- The sequence of nodes the walker passes to its function when started on
an operator, in visiting order. -/
def visitOperator : Option WOperator → List WNode
  | none => []
  | some op =>
    .opN op ::
      match op with
      | .binaryOp l r => visitExpr l ++ visitExpr r
      | .comparisonOp l r => visitExpr l ++ visitExpr r
      | .addOp l r => visitExpr l ++ visitExpr r
      | .multiplyOp l r => visitExpr l ++ visitExpr r
termination_by o => sizeOf o

end

/-- A switch statement whose single case clause carries the expression
`x` in its expression list and a `break` as its body. -/
def demoStmt : WStmt :=
  .switchStmt (some (.identExpr "sel")) [([some (.identExpr "x")], some .breakStmt)] none

/-- A walk function that reports an error exactly on the identifier
expression `x`. -/
def demoF : WNode → Option String :=
  fun n =>
    match n with
    | .exprN (.identExpr s) => if s = "x" then some "hit" else none
    | _ => none

/-- A concrete cancellation flag that becomes (and monotonically stays) set
at time 2, for exercising the cancellation theorems. -/
def cancelAt2 : Nat → Bool := fun t => decide (2 ≤ t)

/-!
## Theorems

One theorem per claim, preceded by the helper lemmas its proof needs.
-/

theorem frameGet_frameSet_self (f : Frame) (x : String) (v : Value)
    (h : frameBinds f x = true) : frameGet (frameSet f x v) x = some v := by
  induction f with
  | nil => simp [frameBinds, frameGet] at h
  | cons p rest ih =>
    obtain ⟨m, w⟩ := p
    by_cases hm : m = x
    · subst hm; simp [frameSet, frameGet]
    · simp [frameBinds, frameGet, hm] at h
      simp [frameSet, frameGet, hm, ih]
      exact ih (by simp [frameBinds, h])

theorem envSetNearest_found (pre post : Env) (fr : Frame) (x : String) (v : Value)
    (hpre : ∀ g ∈ pre, frameBinds g x = false) (hfr : frameBinds fr x = true) :
    envSetNearest (pre ++ fr :: post) x v = some (pre ++ frameSet fr x v :: post) := by
  induction pre with
  | nil => simp [envSetNearest, hfr]
  | cons g rest ih =>
    have hg : frameBinds g x = false := hpre g (by simp)
    simp only [List.cons_append, envSetNearest, hg, Bool.false_eq_true, if_false,
      List.append_eq]
    rw [ih (fun g2 hg2 => hpre g2 (by simp [hg2]))]
    rfl

theorem envSetNearest_none (env : Env) (x : String) (v : Value)
    (h : envGet env x = none) : envSetNearest env x v = none := by
  induction env with
  | nil => rfl
  | cons f rest ih =>
    simp only [envGet] at h
    match hf : frameGet f x with
    | some w => rw [hf] at h; exact absurd h (by simp)
    | none =>
      rw [hf] at h
      simp only [envSetNearest, frameBinds, hf, Option.isSome_none, Bool.false_eq_true, if_false]
      rw [ih h]
      rfl

/-- **C1** — Inside a function body, a plain assignment `x = v` updates the
binding of `x` in the nearest enclosing scope that already binds `x`
(scopes closer to the call that do not bind `x` are skipped, and the outer
binding is observed changed after the call); a `var x = v` declaration
creates a binding in the function's own scope and leaves every outer scope
unchanged; and when no enclosing scope binds `x`, a plain assignment
creates the binding in the function's own scope only, so the environment
observed after the call is unchanged and `x` stays undefined there. -/
theorem anko_c1_scoping :
    (∀ (pre post : Env) (fr : Frame) (x : String) (v : Value),
      (∀ g ∈ pre, frameBinds g x = false) → frameBinds fr x = true →
      callFn (.assign x v) (pre ++ fr :: post) = pre ++ frameSet fr x v :: post ∧
        frameGet (frameSet fr x v) x = some v) ∧
    (∀ (env : Env) (x : String) (v : Value),
      execS (.declare x v) ([] :: env) = [(x, v)] :: env ∧ callFn (.declare x v) env = env) ∧
    (∀ (env : Env) (x : String) (v : Value),
      envGet env x = none →
      callFn (.assign x v) env = env ∧ envGet (callFn (.assign x v) env) x = none) := by
  refine ⟨?_, ?_, ?_⟩
  · intro pre post fr x v hpre hfr
    constructor
    · have hset := envSetNearest_found pre post fr x v hpre hfr
      simp only [callFn, execS, envAssign, envSetNearest, frameBinds, frameGet,
        Option.isSome_none, Bool.false_eq_true, if_false, hset]
      rfl
    · exact frameGet_frameSet_self fr x v hfr
  · intro env x v
    constructor
    · simp [execS, envDefine, frameBinds, frameGet]
    · simp [callFn, execS, envDefine, frameBinds, frameGet]
  · intro env x v h
    have hnone := envSetNearest_none env x v h
    have hcall : callFn (.assign x v) env = env := by
      simp only [callFn, execS, envAssign, envSetNearest, frameBinds, frameGet,
        Option.isSome_none, Bool.false_eq_true, if_false, hnone]
      simp [envDefine, frameBinds, frameGet]
    exact ⟨hcall, by rw [hcall, h]⟩

/-- Witness for C1: with an intervening scope binding only `y` and an outer
scope binding `x`, the call-time assignment rewrites the outer `x` to `2`;
a `var` declaration leaves the outer environment untouched; an assignment
to an unbound `z` leaves the environment without a binding for `z`. -/
theorem anko_c1_scoping_witness :
    (callFn (.assign "x" (.vint 2)) [[("y", .vint 9)], [("x", .vint 1)]] =
        [[("y", .vint 9)], [("x", .vint 2)]] ∧
      frameGet (frameSet [("x", .vint 1)] "x" (.vint 2)) "x" = some (.vint 2)) ∧
    (callFn (.declare "x" (.vint 2)) [[("x", .vint 1)]] = [[("x", .vint 1)]]) ∧
    (callFn (.assign "z" (.vint 7)) [[("x", .vint 1)]] = [[("x", .vint 1)]] ∧
      envGet (callFn (.assign "z" (.vint 7)) [[("x", .vint 1)]]) "z" = none) :=
  ⟨anko_c1_scoping.1 [[("y", .vint 9)]] [] [("x", .vint 1)] "x" (.vint 2)
      (by decide) (by decide),
    (anko_c1_scoping.2.1 [[("x", .vint 1)]] "x" (.vint 2)).2,
    anko_c1_scoping.2.2 [[("x", .vint 1)]] "z" (.vint 7) (by decide)⟩

/-- **C2** — For a string `s` and a value convertible to a string element,
index assignment at `0 ≤ i < len(s)` yields the prefix before `i`, the
converted element, and the suffix after `i`; at exactly `i = len(s)` it
appends the element; at `i ≥ len(s) + 1` it fails with an
index-out-of-range error (and, the model being functional, `s` is
unchanged). -/
theorem anko_c2_string_index_assign :
    ∀ (s : List Char) (v : Value) (c : List Char), convElem v = .ok c →
      (∀ i : Int, 0 ≤ i → i < (s.length : Int) →
        strIndexAssign s i v = .ok (s.take i.toNat ++ c ++ s.drop (i.toNat + 1))) ∧
      strIndexAssign s (s.length : Int) v = .ok (s ++ c) ∧
      (∀ i : Int, (s.length : Int) + 1 ≤ i →
        strIndexAssign s i v = .error "index out of range") := by
  intro s v c h
  refine ⟨?_, ?_, ?_⟩
  · intro i h0 hlen
    simp only [strIndexAssign, h]
    rw [if_neg (by omega), if_neg (by omega)]
  · simp only [strIndexAssign, h]
    rw [if_neg (by omega)]
    simp
  · intro i hi
    simp only [strIndexAssign, h]
    rw [if_pos (by omega)]

/-- Witness for C2, mirroring the vm test rows for `"abc"`: in-range
assignment replaces one element, assignment at the length appends, and
assignment one past the length fails. -/
theorem anko_c2_string_index_assign_witness :
    strIndexAssign ['a', 'b', 'c'] 1 (.vstr ['x']) = .ok ['a', 'x', 'c'] ∧
    strIndexAssign ['a', 'b', 'c'] 3 (.vstr ['x']) = .ok ['a', 'b', 'c', 'x'] ∧
    strIndexAssign ['a', 'b', 'c'] 4 (.vstr ['x']) = .error "index out of range" :=
  ⟨(anko_c2_string_index_assign ['a', 'b', 'c'] (.vstr ['x']) ['x'] rfl).1 1
      (by decide) (by decide),
    (anko_c2_string_index_assign ['a', 'b', 'c'] (.vstr ['x']) ['x'] rfl).2.1,
    (anko_c2_string_index_assign ['a', 'b', 'c'] (.vstr ['x']) ['x'] rfl).2.2 4 (by decide)⟩

/-- **C5** — A slice `s[b:e]` succeeds exactly when `0 ≤ b ≤ e ≤ len(s)`,
in which case it returns the half-open range from `b` to `e`; in
particular `s[0:len(s)] = s` and `s[len(s):len(s)] = []`; any violation of
the bounds (including `b > e`) fails with an index-out-of-range error. -/
theorem anko_c5_slice :
    ∀ (s : List Char) (b e : Int),
      ((∃ r, sliceSeq s b e = .ok r) ↔ 0 ≤ b ∧ b ≤ e ∧ e ≤ (s.length : Int)) ∧
      (0 ≤ b → b ≤ e → e ≤ (s.length : Int) →
        sliceSeq s b e = .ok ((s.drop b.toNat).take (e - b).toNat)) ∧
      sliceSeq s 0 (s.length : Int) = .ok s ∧
      sliceSeq s (s.length : Int) (s.length : Int) = .ok [] ∧
      (¬(0 ≤ b ∧ b ≤ e ∧ e ≤ (s.length : Int)) →
        sliceSeq s b e = .error "index out of range") := by
  intro s b e
  refine ⟨⟨?_, ?_⟩, ?_, ?_, ?_, ?_⟩
  · rintro ⟨r, hr⟩
    by_contra hc
    simp only [sliceSeq, if_neg hc] at hr
    cases hr
  · intro hb
    exact ⟨(s.drop b.toNat).take (e - b).toNat, by simp only [sliceSeq, if_pos hb]⟩
  · intro h0 hbe he
    simp only [sliceSeq]
    rw [if_pos ⟨h0, hbe, he⟩]
  · simp only [sliceSeq]
    rw [if_pos ⟨by omega, by omega, by omega⟩]
    rw [show ((0 : Int)).toNat = 0 from rfl,
      show ((s.length : Int) - 0).toNat = s.length from by omega]
    simp
  · simp only [sliceSeq]
    rw [if_pos ⟨by omega, by omega, by omega⟩]
    rw [show ((s.length : Int)).toNat = s.length from by omega,
      show ((s.length : Int) - (s.length : Int)).toNat = 0 from by omega]
    simp
  · intro hc
    simp only [sliceSeq, if_neg hc]

/-- Witness for C5 on the string `"test"`: an interior slice, the full
slice, the empty slice at the length, and a reversed-endpoint failure. -/
theorem anko_c5_slice_witness :
    sliceSeq ['t', 'e', 's', 't'] 1 3 = .ok ['e', 's'] ∧
    sliceSeq ['t', 'e', 's', 't'] 0 4 = .ok ['t', 'e', 's', 't'] ∧
    sliceSeq ['t', 'e', 's', 't'] 4 4 = .ok [] ∧
    sliceSeq ['t', 'e', 's', 't'] 1 0 = .error "index out of range" :=
  ⟨(anko_c5_slice ['t', 'e', 's', 't'] 1 3).2.1 (by decide) (by decide) (by decide),
    (anko_c5_slice ['t', 'e', 's', 't'] 0 4).2.2.1,
    (anko_c5_slice ['t', 'e', 's', 't'] 4 4).2.2.2.1,
    (anko_c5_slice ['t', 'e', 's', 't'] 1 0).2.2.2.2 (by decide)⟩

/-- **C6** — A module binding whose name begins with an underscore is
denied from outside the module with an undefined-symbol error, while code
defined inside the module (a function whose scope chain passes through the
module scope) reads the binding and obtains its value. -/
theorem anko_c6_module_isolation :
    ∀ (m : Frame) (x : String) (v : Value) (globals : Env),
      startsWithUnderscore x = true → frameGet m x = some v →
      moduleGetExternal m x = .error ("undefined symbol " ++ x) ∧
      moduleGetInternal [] m globals x = some v := by
  intro m x v globals hu hg
  constructor
  · simp [moduleGetExternal, hu]
  · simp [moduleGetInternal, envGet, frameGet, hg]

/-- Witness for C6, mirroring the vm test
`module a { _b = "b"; func c() { return _b } }`: external access to `_p`
errors, internal access yields the binding. -/
theorem anko_c6_module_isolation_witness :
    moduleGetExternal [("_p", .vint 7)] "_p" = .error "undefined symbol _p" ∧
    moduleGetInternal [] [("_p", .vint 7)] [] "_p" = some (.vint 7) :=
  ⟨(anko_c6_module_isolation [("_p", .vint 7)] "_p" (.vint 7) [] (by decide) (by decide)).1,
    (anko_c6_module_isolation [("_p", .vint 7)] "_p" (.vint 7) [] (by decide) (by decide)).2⟩

/-- **C7** — Integer literals beyond the 64-bit signed range fail parsing
with an invalid-number error, while the two boundary literals parse and
evaluate to the corresponding `int64` values (the vm test's concrete
boundary inputs included). -/
theorem anko_c7_int_literal_bounds :
    (∀ v : Int, 9223372036854775807 < v ∨ v < -9223372036854775808 →
      parseIntLit v = .error ("invalid number: " ++ toString v)) ∧
    parseIntLit 9223372036854775807 = .ok 9223372036854775807 ∧
    parseIntLit (-9223372036854775808) = .ok (-9223372036854775808) ∧
    parseIntLit 9223372036854775808 = .error "invalid number: 9223372036854775808" ∧
    parseIntLit (-9223372036854775809) = .error "invalid number: -9223372036854775809" := by
  refine ⟨?_, ?_, ?_, ?_, ?_⟩
  · intro v h
    simp only [parseIntLit]
    rw [if_pos h]
  · simp only [parseIntLit]
    rw [if_neg (by omega)]
  · simp only [parseIntLit]
    rw [if_neg (by omega)]
  · simp only [parseIntLit]
    rw [if_pos (by omega)]
    rfl
  · simp only [parseIntLit]
    rw [if_pos (by omega)]
    rfl

/-- Witness for C7: the first out-of-range literal greater than the 64-bit
maximum is rejected with the invalid-number error. -/
theorem anko_c7_int_literal_bounds_witness :
    parseIntLit 9223372036854775808 = .error "invalid number: 9223372036854775808" :=
  anko_c7_int_literal_bounds.1 9223372036854775808 (by omega)

/-- **C3 counterexample** — Replaying the vm test
`a = make(chan int64, 2); a <- 1; close(a); <- a; <- a`: the second
receive, on the closed and drained channel, yields the script `nil`, which
is not the element-type zero `int64 0` the claim states. -/
theorem anko_c3_counterexample :
    chanSend ⟨[], false⟩ (.vint 1) = .ok ⟨[.vint 1], false⟩ ∧
    chanRecv ⟨[.vint 1], true⟩ = some (.vint 1, ⟨[], true⟩) ∧
    chanRecv ⟨[], true⟩ = some (.vnil, ⟨[], true⟩) ∧
    Value.vnil ≠ Value.vint 0 := by
  refine ⟨rfl, rfl, rfl, by decide⟩

/-- **C3 (amended)** — Sending on a closed channel fails with
`send on closed channel`; receives after close yield the previously
buffered values in FIFO order and, once the buffer is drained, yield the
script `nil` (not the element-type zero). -/
theorem anko_c3_closed_channel :
    (∀ (ch : ChanV) (v : Value), ch.closed = true →
      chanSend ch v = .error "send on closed channel") ∧
    (∀ vs : List Value, recvList ⟨vs, true⟩ (vs.length + 1) = vs ++ [.vnil]) := by
  constructor
  · intro ch v h
    simp [chanSend, h]
  · intro vs
    induction vs with
    | nil => rfl
    | cons v rest ih =>
      simp only [List.length_cons, recvList, chanRecv, List.cons_append]
      exact congrArg (v :: ·) ih

/-- Witness for C3: a closed channel rejects a send, and a closed channel
holding `1, 2` drains to `1, 2` and then yields `nil`. -/
theorem anko_c3_closed_channel_witness :
    chanSend ⟨[.vint 1], true⟩ (.vint 2) = .error "send on closed channel" ∧
    recvList ⟨[.vint 1, .vint 2], true⟩ 3 = [.vint 1, .vint 2, .vnil] :=
  ⟨anko_c3_closed_channel.1 ⟨[.vint 1], true⟩ (.vint 2) rfl,
    anko_c3_closed_channel.2 [.vint 1, .vint 2]⟩

theorem mono_ge {c : Nat → Bool} (hm : Mono c) {T : Nat} (hT : c T = true) :
    ∀ t, T ≤ t → c t = true := by
  intro t
  induction t with
  | zero => intro h; rw [Nat.le_zero.mp h] at hT; exact hT
  | succ k ih =>
    intro h
    rcases Nat.lt_or_ge T (k + 1) with h2 | h2
    · exact hm k (ih (Nat.lt_succ_iff.mp h2))
    · rw [← Nat.le_antisymm h h2]; exact hT

theorem cexec_done_lt {c : Nat → Bool} :
    ∀ (f : Nat) (s : CStmt) (t t2 : Nat), cexec c s t f = .done t2 → t < t2 := by
  intro f
  induction f with
  | zero => intro s t t2 h; simp [cexec] at h
  | succ f ih =>
    intro s t t2 h
    by_cases hc : c t = true
    · simp [cexec, hc] at h
    · cases s with
      | basic =>
        simp [cexec, hc] at h
        omega
      | seqC a b =>
        simp only [cexec, hc, Bool.false_eq_true, if_false] at h
        cases ha : cexec c a t f with
        | done t1 => rw [ha] at h; exact lt_trans (ih a t t1 ha) (ih b t1 t2 h)
        | intr t1 => rw [ha] at h; cases h
        | fuelOut => rw [ha] at h; cases h
      | forever body =>
        simp only [cexec, hc, Bool.false_eq_true, if_false] at h
        cases hb : cexec c body t f with
        | done t1 => rw [hb] at h; exact lt_trans (ih body t t1 hb) (ih _ t1 t2 h)
        | intr t1 => rw [hb] at h; cases h
        | fuelOut => rw [hb] at h; cases h
      | recvBlock =>
        simp only [cexec, hc, Bool.false_eq_true, if_false] at h
        have := ih _ _ _ h
        omega

theorem cexec_forever_ne_done {c : Nat → Bool} :
    ∀ (f : Nat) (body : CStmt) (t t2 : Nat), cexec c (.forever body) t f ≠ .done t2 := by
  intro f
  induction f with
  | zero => intro body t t2 h; simp [cexec] at h
  | succ f ih =>
    intro body t t2 h
    by_cases hc : c t = true
    · simp [cexec, hc] at h
    · simp only [cexec, hc, Bool.false_eq_true, if_false] at h
      cases hb : cexec c body t f with
      | done t1 => rw [hb] at h; exact ih body t1 t2 h
      | intr t1 => rw [hb] at h; cases h
      | fuelOut => rw [hb] at h; cases h

theorem cexec_recvBlock_ne_done {c : Nat → Bool} :
    ∀ (f : Nat) (t t2 : Nat), cexec c .recvBlock t f ≠ .done t2 := by
  intro f
  induction f with
  | zero => intro t t2 h; simp [cexec] at h
  | succ f ih =>
    intro t t2 h
    by_cases hc : c t = true
    · simp [cexec, hc] at h
    · simp only [cexec, hc, Bool.false_eq_true, if_false] at h
      exact ih (t + 1) t2 h

theorem cexec_ne_fuelOut {c : Nat → Bool} {T : Nat} (hm : Mono c) (hT : c T = true) :
    ∀ (d : Nat) (s : CStmt) (t f : Nat), T - t ≤ d → (d + 1) * (csize s + 1) + 1 ≤ f →
      cexec c s t f ≠ .fuelOut := by
  intro d
  induction d using Nat.strong_induction_on with
  | _ d ihd =>
    intro s
    induction s with
    | basic =>
      intro t f hd hf h
      have hf1 : 1 ≤ f := le_trans (Nat.le_add_left 1 _) hf
      obtain ⟨f2, rfl⟩ : ∃ f2, f = f2 + 1 := ⟨f - 1, by omega⟩
      by_cases hc : c t = true
      · simp [cexec, hc] at h
      · simp [cexec, hc] at h
    | seqC a b iha ihb =>
      intro t f hd hf h
      simp only [csize] at hf
      have hf1 : 1 ≤ f := le_trans (Nat.le_add_left 1 _) hf
      obtain ⟨f2, rfl⟩ : ∃ f2, f = f2 + 1 := ⟨f - 1, by omega⟩
      by_cases hc : c t = true
      · simp [cexec, hc] at h
      · have htT : t < T := by
          rcases Nat.lt_or_ge t T with h2 | h2
          · exact h2
          · exact absurd (mono_ge hm hT t h2) hc
        simp only [cexec, hc, Bool.false_eq_true, if_false] at h
        have e1 : (d + 1) * (csize a + csize b + 1 + 1) =
            (d + 1) * (csize a + 1) + (d + 1) * (csize b + 1) := by ring
        have p1 : 0 < (d + 1) * (csize b + 1) := Nat.mul_pos (by omega) (by omega)
        have p2 : 0 < (d + 1) * (csize a + 1) := Nat.mul_pos (by omega) (by omega)
        have hba : (d + 1) * (csize a + 1) + 1 ≤ f2 := by linarith
        cases ha : cexec c a t f2 with
        | done t1 =>
          rw [ha] at h
          have ht1 : t < t1 := cexec_done_lt f2 a t t1 ha
          have hd1 : 1 ≤ d := by omega
          have e2 : d - 1 + 1 = d := by omega
          refine ihd (d - 1) (by omega) b t1 f2 (by omega) ?_ h
          rw [e2]
          have e3 : (d + 1) * (csize b + 1) = d * (csize b + 1) + (csize b + 1) := by ring
          linarith
        | intr t1 => rw [ha] at h; cases h
        | fuelOut => rw [ha] at h; exact iha t f2 hd hba ha
    | forever body ihb =>
      intro t f hd hf h
      simp only [csize] at hf
      have hf1 : 1 ≤ f := le_trans (Nat.le_add_left 1 _) hf
      obtain ⟨f2, rfl⟩ : ∃ f2, f = f2 + 1 := ⟨f - 1, by omega⟩
      by_cases hc : c t = true
      · simp [cexec, hc] at h
      · have htT : t < T := by
          rcases Nat.lt_or_ge t T with h2 | h2
          · exact h2
          · exact absurd (mono_ge hm hT t h2) hc
        simp only [cexec, hc, Bool.false_eq_true, if_false] at h
        have e1 : (d + 1) * (csize body + 1 + 1) =
            (d + 1) * (csize body + 1) + (d + 1) := by ring
        have hbb : (d + 1) * (csize body + 1) + 1 ≤ f2 := by linarith
        cases hb : cexec c body t f2 with
        | done t1 =>
          rw [hb] at h
          have ht1 : t < t1 := cexec_done_lt f2 body t t1 hb
          have hd1 : 1 ≤ d := by omega
          have e2 : d - 1 + 1 = d := by omega
          refine ihd (d - 1) (by omega) (.forever body) t1 f2 (by omega) ?_ h
          rw [e2]
          simp only [csize]
          have e3 : (d + 1) * (csize body + 1 + 1) =
              d * (csize body + 1 + 1) + (csize body + 1 + 1) := by ring
          linarith
        | intr t1 => rw [hb] at h; cases h
        | fuelOut => rw [hb] at h; exact ihb t f2 hd hbb hb
    | recvBlock =>
      intro t f hd hf h
      simp only [csize] at hf
      have hf1 : 1 ≤ f := by omega
      obtain ⟨f2, rfl⟩ : ∃ f2, f = f2 + 1 := ⟨f - 1, by omega⟩
      by_cases hc : c t = true
      · simp [cexec, hc] at h
      · have htT : t < T := by
          rcases Nat.lt_or_ge t T with h2 | h2
          · exact h2
          · exact absurd (mono_ge hm hT t h2) hc
        simp only [cexec, hc, Bool.false_eq_true, if_false] at h
        have hd1 : 1 ≤ d := by omega
        have e2 : d - 1 + 1 = d := by omega
        refine ihd (d - 1) (by omega) .recvBlock (t + 1) f2 (by omega) ?_ h
        rw [e2]
        simp only [csize]
        omega

/-- **C4** — Under a monotone cancellation flag that is set at time `T`:
an unconditionally repeating loop with any body (and, likewise, a blocked
channel wait) executed with enough fuel for the cancellation horizon
terminates with the Interrupt outcome rather than running out of fuel; and
executing any statement when the flag is already set (a subsequent
execution reusing an already-cancelled context) immediately returns the
Interrupt outcome. -/
theorem anko_c4_cancellation {c : Nat → Bool} {T : Nat} (hm : Mono c) (hT : c T = true) :
    (∀ (body : CStmt) (t f : Nat), (T - t + 1) * (csize body + 2) + 1 ≤ f →
      ∃ t2, cexec c (.forever body) t f = .intr t2) ∧
    (∀ (t f : Nat), (T - t + 1) * 2 + 1 ≤ f → ∃ t2, cexec c .recvBlock t f = .intr t2) ∧
    (∀ (s : CStmt) (t f : Nat), c t = true → 1 ≤ f → cexec c s t f = .intr t) := by
  refine ⟨?_, ?_, ?_⟩
  · intro body t f hf
    have hnf := cexec_ne_fuelOut hm hT (T - t) (.forever body) t f (le_refl _)
      (by simpa [csize, Nat.add_assoc] using hf)
    cases hr : cexec c (.forever body) t f with
    | done t2 => exact absurd hr (cexec_forever_ne_done f body t t2)
    | intr t2 => exact ⟨t2, rfl⟩
    | fuelOut => exact absurd hr hnf
  · intro t f hf
    have hnf := cexec_ne_fuelOut hm hT (T - t) .recvBlock t f (le_refl _)
      (by simpa [csize] using hf)
    cases hr : cexec c .recvBlock t f with
    | done t2 => exact absurd hr (cexec_recvBlock_ne_done f t t2)
    | intr t2 => exact ⟨t2, rfl⟩
    | fuelOut => exact absurd hr hnf
  · intro s t f hc hf
    obtain ⟨f2, rfl⟩ : ∃ f2, f = f2 + 1 := ⟨f - 1, by omega⟩
    simp [cexec, hc]

/-- Witness for C4: with the flag set from time 2 on, the infinite loop
`for { basic }` started at time 0 with fuel 20 reaches the Interrupt
outcome, and a statement started when the flag is already set is
interrupted immediately. -/
theorem anko_c4_cancellation_witness :
    (∃ t2, cexec cancelAt2 (.forever .basic) 0 20 = .intr t2) ∧
    cexec cancelAt2 .basic 5 3 = .intr 5 :=
  have hm : Mono cancelAt2 := fun t h => by
    simp only [cancelAt2, decide_eq_true_eq] at h ⊢
    omega
  have hT : cancelAt2 2 = true := by decide
  ⟨(anko_c4_cancellation hm hT).1 .basic 0 20 (by simp [csize]),
    (anko_c4_cancellation hm hT).2.2 .basic 5 3 (by decide) (by omega)⟩

set_option maxHeartbeats 12000000 in
set_option maxRecDepth 10000 in
/-- **C8** — Running the repository's parser tables on the token stream of
`a = 1, 2` (IDENT `=` NUMBER `,` NUMBER) returns the parser's error code 1,
while the token stream of `var a = 1, 2` (VAR IDENT `=` NUMBER `,` NUMBER)
is accepted; executing the resulting `var` statement binds `a` to `1`,
discards `2`, and yields `2` as the statement's result value. -/
theorem anko_c8_var_multi_value :
    Yacc.parseChars [57346, 61, 57347, 44, 57347] = some 1 ∧
    Yacc.parseChars [57353, 57346, 61, 57347, 44, 57347] = some 0 ∧
    reduceVarStmt ["a"] [.num 1, .num 2] = .varStmt ["a"] [.num 1, .num 2] ∧
    execVarStmt ["a"] [.vint 1, .vint 2] [[]] = ([[("a", .vint 1)]], some (.vint 2)) ∧
    envGet [[("a", .vint 1)]] "a" = some (.vint 1) :=
  ⟨by decide, by decide, rfl, by decide, by decide⟩

theorem reduceMultiCase_eq_map (es : List PExpr) (body : List PStmt) :
    reduceMultiCase es body = es.map (fun e => PStmt.caseStmt e body) := by
  have key : ∀ (es2 : List PExpr) (acc : List PStmt),
      es2.foldl (fun cases e => cases ++ [PStmt.caseStmt e body]) acc =
        acc ++ es2.map (fun e => PStmt.caseStmt e body) := by
    intro es2
    induction es2 with
    | nil => intro acc; simp
    | cons e rest ih => intro acc; simp [List.foldl_cons, ih]
  simpa using key es []

/-- **C9** — The parser's multi-value case reduce action emits one
`CaseStmt` per listed expression, in order, all sharing the same body
statement list — the same statements as reducing each expression as a
single-expression case clause; consequently a selector matching any of the
listed expressions executes that shared body. -/
theorem anko_c9_multi_case :
    (∀ (es : List PExpr) (body : List PStmt),
      reduceMultiCase es body = es.map (fun e => reduceSingleCase e body)) ∧
    (∀ (a b c : PExpr) (body : List PStmt),
      reduceMultiCase [a, b, c] body =
        [reduceSingleCase a body, reduceSingleCase b body, reduceSingleCase c body]) ∧
    (∀ (sel : PExpr) (es : List PExpr) (body : List PStmt),
      sel ∈ es → runSwitch sel (reduceMultiCase es body) = some body) := by
  refine ⟨?_, ?_, ?_⟩
  · intro es body
    exact reduceMultiCase_eq_map es body
  · intro a b c body
    simp [reduceMultiCase_eq_map, reduceSingleCase]
  · intro sel es body hmem
    rw [reduceMultiCase_eq_map]
    induction es with
    | nil => cases hmem
    | cons e rest ih =>
      by_cases he : e = sel
      · simp [runSwitch, he]
      · have : sel ∈ rest := by
          cases hmem with
          | head => exact absurd rfl he
          | tail _ h => exact h
        simp only [List.map_cons, runSwitch, he, Bool.false_eq_true, if_false]
        exact ih this

/-- Witness for C9: `case a, b, c:` with a one-statement body; a selector
equal to the middle listed expression executes the shared body. -/
theorem anko_c9_multi_case_witness :
    runSwitch (.ident "b")
        (reduceMultiCase [.ident "a", .ident "b", .ident "c"] [.otherStmt 0]) =
      some [.otherStmt 0] :=
  anko_c9_multi_case.2.2 (.ident "b") [.ident "a", .ident "b", .ident "c"]
    [.otherStmt 0] (by simp)

theorem firstSome_append {ε : Type} (g : WNode → Option ε) (l1 l2 : List WNode) :
    firstSome g (l1 ++ l2) = (firstSome g l1 <|> firstSome g l2) := by
  induction l1 with
  | nil => simp [firstSome]
  | cons n rest ih =>
    simp only [List.cons_append, firstSome]
    cases g n with
    | none => simpa using ih
    | some err => simp

set_option maxHeartbeats 4000000

mutual

theorem walkStmt_visit {ε : Type} (s : Option WStmt) (g : WNode → Option ε) :
    walkStmt s (some g) = firstSome g (visitStmt s) := by
  cases s with
  | none => simp [walkStmt, visitStmt, firstSome]
  | some st =>
    cases st with
    | stmtsStmt l =>
      have h1 := walkStmts_visit l g
      simp only [walkStmt, visitStmt, firstSome, firstSome_append, List.append_assoc, h1]
    | breakStmt =>
      simp only [walkStmt, visitStmt, firstSome, firstSome_append, List.append_assoc]
    | continueStmt =>
      simp only [walkStmt, visitStmt, firstSome, firstSome_append, List.append_assoc]
    | letMapItemStmt lhss rhs =>
      have h1 := walkExpr_visit rhs g
      have h2 := walkExprs_visit lhss g
      simp only [walkStmt, visitStmt, firstSome, firstSome_append, List.append_assoc, h1, h2]
    | returnStmt exprs =>
      have h1 := walkExprs_visit exprs g
      simp only [walkStmt, visitStmt, firstSome, firstSome_append, List.append_assoc, h1]
    | exprStmt e =>
      have h1 := walkExpr_visit e g
      simp only [walkStmt, visitStmt, firstSome, firstSome_append, List.append_assoc, h1]
    | varStmt ns exprs =>
      have h1 := walkExprs_visit exprs g
      simp only [walkStmt, visitStmt, firstSome, firstSome_append, List.append_assoc, h1]
    | letsStmt lhss rhss =>
      have h1 := walkExprs_visit rhss g
      have h2 := walkExprs_visit lhss g
      simp only [walkStmt, visitStmt, firstSome, firstSome_append, List.append_assoc, h1, h2]
    | ifStmt i th ei el =>
      have h1 := walkExpr_visit i g
      have h2 := walkStmt_visit th g
      have h3 := walkStmts_visit ei g
      have h4 := walkStmt_visit el g
      simp only [walkStmt, visitStmt, firstSome, firstSome_append, List.append_assoc, h1, h2, h3, h4]
    | tryStmt tr ca fi =>
      have h1 := walkStmt_visit tr g
      have h2 := walkStmt_visit ca g
      have h3 := walkStmt_visit fi g
      simp only [walkStmt, visitStmt, firstSome, firstSome_append, List.append_assoc, h1, h2, h3]
    | loopStmt e st2 =>
      have h1 := walkExpr_visit e g
      have h2 := walkStmt_visit st2 g
      simp only [walkStmt, visitStmt, firstSome, firstSome_append, List.append_assoc, h1, h2]
    | forStmt vs v st2 =>
      have h1 := walkExpr_visit v g
      have h2 := walkStmt_visit st2 g
      simp only [walkStmt, visitStmt, firstSome, firstSome_append, List.append_assoc, h1, h2]
    | cforStmt s1 e2 e3 st2 =>
      have h1 := walkStmt_visit s1 g
      have h2 := walkExpr_visit e2 g
      have h3 := walkExpr_visit e3 g
      have h4 := walkStmt_visit st2 g
      simp only [walkStmt, visitStmt, firstSome, firstSome_append, List.append_assoc, h1, h2, h3, h4]
    | throwStmt e =>
      have h1 := walkExpr_visit e g
      simp only [walkStmt, visitStmt, firstSome, firstSome_append, List.append_assoc, h1]
    | moduleStmt nm st2 =>
      have h1 := walkStmt_visit st2 g
      simp only [walkStmt, visitStmt, firstSome, firstSome_append, List.append_assoc, h1]
    | switchStmt e cs dflt =>
      have h1 := walkExpr_visit e g
      have h2 := walkCaseBodies_visit cs g
      have h3 := walkStmt_visit dflt g
      simp only [walkStmt, visitStmt, firstSome, firstSome_append, List.append_assoc, h1, h2, h3]
    | goroutineStmt e =>
      have h1 := walkExpr_visit e g
      simp only [walkStmt, visitStmt, firstSome, firstSome_append, List.append_assoc, h1]
termination_by sizeOf s

theorem walkStmts_visit {ε : Type} (l : List (Option WStmt)) (g : WNode → Option ε) :
    walkStmts l (some g) = firstSome g (visitStmts l) := by
  cases l with
  | nil => simp [walkStmts, visitStmts, firstSome]
  | cons s rest =>
    have h1 := walkStmt_visit s g
    have h2 := walkStmts_visit rest g
    simp only [walkStmts, visitStmts, firstSome_append, h1, h2]
termination_by sizeOf l

theorem walkExprs_visit {ε : Type} (l : List (Option WExpr)) (g : WNode → Option ε) :
    walkExprs l (some g) = firstSome g (visitExprs l) := by
  cases l with
  | nil => simp [walkExprs, visitExprs, firstSome]
  | cons e rest =>
    have h1 := walkExpr_visit e g
    have h2 := walkExprs_visit rest g
    simp only [walkExprs, visitExprs, firstSome_append, h1, h2]
termination_by sizeOf l

theorem walkCaseBodies_visit {ε : Type} (cs : List (List (Option WExpr) × Option WStmt))
    (g : WNode → Option ε) :
    walkCaseBodies cs (some g) = firstSome g (visitCaseBodies cs) := by
  cases cs with
  | nil => simp [walkCaseBodies, visitCaseBodies, firstSome]
  | cons hd rest =>
    obtain ⟨es, body⟩ := hd
    have h1 := walkStmt_visit body g
    have h2 := walkCaseBodies_visit rest g
    simp only [walkCaseBodies, visitCaseBodies, firstSome_append, h1, h2]
termination_by sizeOf cs

theorem walkEntries_visit {ε : Type} (l : List (Option WExpr × Option WExpr))
    (g : WNode → Option ε) :
    walkEntries l (some g) = firstSome g (visitEntries l) := by
  cases l with
  | nil => simp [walkEntries, visitEntries, firstSome]
  | cons hd rest =>
    obtain ⟨k, v⟩ := hd
    have h1 := walkExpr_visit k g
    have h2 := walkExpr_visit v g
    have h3 := walkEntries_visit rest g
    simp only [walkEntries, visitEntries, firstSome_append, List.append_assoc, h1, h2, h3]
termination_by sizeOf l

theorem walkExpr_visit {ε : Type} (e : Option WExpr) (g : WNode → Option ε) :
    walkExpr e (some g) = firstSome g (visitExpr e) := by
  cases e with
  | none => simp [walkExpr, visitExpr, firstSome]
  | some ex =>
    cases ex with
    | opExpr op =>
      have h1 := walkOperator_visit op g
      simp only [walkExpr, visitExpr, firstSome, firstSome_append, List.append_assoc, h1]
    | lenExpr e2 =>
      simp only [walkExpr, visitExpr, firstSome, firstSome_append, List.append_assoc]
    | literalExpr =>
      simp only [walkExpr, visitExpr, firstSome, firstSome_append, List.append_assoc]
    | identExpr nm =>
      simp only [walkExpr, visitExpr, firstSome, firstSome_append, List.append_assoc]
    | memberExpr e2 nm =>
      have h1 := walkExpr_visit e2 g
      simp only [walkExpr, visitExpr, firstSome, firstSome_append, List.append_assoc, h1]
    | itemExpr item idx =>
      have h1 := walkExpr_visit item g
      have h2 := walkExpr_visit idx g
      simp only [walkExpr, visitExpr, firstSome, firstSome_append, List.append_assoc, h1, h2]
    | sliceExpr item b en =>
      have h1 := walkExpr_visit item g
      have h2 := walkExpr_visit b g
      have h3 := walkExpr_visit en g
      simp only [walkExpr, visitExpr, firstSome, firstSome_append, List.append_assoc, h1, h2, h3]
    | arrayExpr exprs =>
      have h1 := walkExprs_visit exprs g
      simp only [walkExpr, visitExpr, firstSome, firstSome_append, List.append_assoc, h1]
    | mapExpr entries =>
      have h1 := walkEntries_visit entries g
      simp only [walkExpr, visitExpr, firstSome, firstSome_append, List.append_assoc, h1]
    | derefExpr e2 =>
      have h1 := walkExpr_visit e2 g
      simp only [walkExpr, visitExpr, firstSome, firstSome_append, List.append_assoc, h1]
    | addrExpr e2 =>
      have h1 := walkExpr_visit e2 g
      simp only [walkExpr, visitExpr, firstSome, firstSome_append, List.append_assoc, h1]
    | unaryExpr opn e2 =>
      have h1 := walkExpr_visit e2 g
      simp only [walkExpr, visitExpr, firstSome, firstSome_append, List.append_assoc, h1]
    | parenExpr sub =>
      have h1 := walkExpr_visit sub g
      simp only [walkExpr, visitExpr, firstSome, firstSome_append, List.append_assoc, h1]
    | funcExpr st2 =>
      have h1 := walkStmt_visit st2 g
      simp only [walkExpr, visitExpr, firstSome, firstSome_append, List.append_assoc, h1]
    | letsExpr lhss rhss =>
      have h1 := walkExprs_visit lhss g
      have h2 := walkExprs_visit rhss g
      simp only [walkExpr, visitExpr, firstSome, firstSome_append, List.append_assoc, h1, h2]
    | anonCallExpr e2 subExprs va goF =>
      have h1 := walkExpr_visit e2 g
      have h2 := walkExprs_visit subExprs g
      simp only [walkExpr, visitExpr, firstSome, firstSome_append, List.append_assoc, h1, h2]
    | callExpr subExprs va goF =>
      have h1 := walkExprs_visit subExprs g
      simp only [walkExpr, visitExpr, firstSome, firstSome_append, List.append_assoc, h1]
    | ternaryOpExpr cnd l r =>
      have h1 := walkExpr_visit cnd g
      have h2 := walkExpr_visit l g
      have h3 := walkExpr_visit r g
      simp only [walkExpr, visitExpr, firstSome, firstSome_append, List.append_assoc, h1, h2, h3]
    | importExpr nm =>
      have h1 := walkExpr_visit nm g
      simp only [walkExpr, visitExpr, firstSome, firstSome_append, List.append_assoc, h1]
    | makeExpr le ce =>
      have h1 := walkExpr_visit le g
      have h2 := walkExpr_visit ce g
      simp only [walkExpr, visitExpr, firstSome, firstSome_append, List.append_assoc, h1, h2]
    | chanExpr l r =>
      have h1 := walkExpr_visit r g
      have h2 := walkExpr_visit l g
      simp only [walkExpr, visitExpr, firstSome, firstSome_append, List.append_assoc, h1, h2]
    | includeExpr it ls =>
      have h1 := walkExpr_visit it g
      have h2 := walkExpr_visit ls g
      simp only [walkExpr, visitExpr, firstSome, firstSome_append, List.append_assoc, h1, h2]
termination_by sizeOf e

theorem walkOperator_visit {ε : Type} (o : Option WOperator) (g : WNode → Option ε) :
    walkOperator o (some g) = firstSome g (visitOperator o) := by
  cases o with
  | none => simp [walkOperator, visitOperator, firstSome]
  | some op =>
    cases op with
    | binaryOp l r =>
      have h1 := walkExpr_visit l g
      have h2 := walkExpr_visit r g
      simp only [walkOperator, visitOperator, firstSome, firstSome_append, List.append_assoc, h1, h2]
    | comparisonOp l r =>
      have h1 := walkExpr_visit l g
      have h2 := walkExpr_visit r g
      simp only [walkOperator, visitOperator, firstSome, firstSome_append, List.append_assoc, h1, h2]
    | addOp l r =>
      have h1 := walkExpr_visit l g
      have h2 := walkExpr_visit r g
      simp only [walkOperator, visitOperator, firstSome, firstSome_append, List.append_assoc, h1, h2]
    | multiplyOp l r =>
      have h1 := walkExpr_visit l g
      have h2 := walkExpr_visit r g
      simp only [walkOperator, visitOperator, firstSome, firstSome_append, List.append_assoc, h1, h2]
termination_by sizeOf o

end

/-- **C10 (amended)** — For a non-nil statement and a non-nil walk function,
`Walk` applies the function to exactly the nodes of the pre-order visiting
sequence `visitStmt` — the root and, recursively, the contained statements,
expressions and operators, except that switch case clauses are traversed
only through their bodies (the clause's expression list is never passed to
the function, nor is the operand of a `len` expression), and an anonymous
call additionally yields a synthesized `CallExpr` node — and returns the
first non-nil error produced, stopping there; a nil statement or a nil
function yields nil without any application. -/
theorem anko_c10_walk_order (ε : Type) :
    (∀ (s : WStmt) (g : WNode → Option ε),
      Walk (some s) (some g) = firstSome g (visitStmt (some s))) ∧
    (∀ f : Option (WNode → Option ε), Walk none f = none) ∧
    (∀ s : Option WStmt, Walk (ε := ε) s none = none) := by
  refine ⟨?_, ?_, ?_⟩
  · intro s g
    exact walkStmt_visit (some s) g
  · intro f
    cases f <;> simp [Walk, walkStmt]
  · intro s
    cases s <;> simp [Walk, walkStmt]

/-- **C10 counterexample** — The walk function `demoF` errors exactly on
the identifier expression `x`; that expression is contained in `demoStmt`
(in the expression list of its switch case clause), yet `Walk` returns nil
instead of stopping with the error — while the same function applied to a
statement containing `x` in a walked position does stop with the error. -/
theorem anko_c10_counterexample :
    Walk (some demoStmt) (some demoF) = none ∧
    demoF (.exprN (.identExpr "x")) = some "hit" ∧
    Walk (some (.letsStmt [] [some (.identExpr "x")])) (some demoF) = some "hit" := by
  refine ⟨?_, rfl, ?_⟩
  · simp [Walk, demoStmt, demoF, walkStmt, walkExpr, walkCaseBodies]
  · simp [Walk, demoStmt, demoF, walkStmt, walkExpr, walkExprs]

end Anko
